import Mathlib

/-!
Synergy secure socket layer: embedding and verification.

Shallow embedding of `src/lib/plugin/ns/SecureSocket.cpp` and
`src/lib/plugin/ns/SecureListenSocket.cpp`.

Modelling conventions.

* The TLS library (OpenSSL), the plain TCP socket, the multiplexer, the event
  queue and the logger are collaborators outside the two source files.  Every
  call the code makes to one of them is appended, in program order, to a trace
  of `Effect`s; every value the code reads back from one of them is an explicit
  argument of the embedded function (a "reply").
* Native objects (TLS contexts, TLS sessions, jobs) are identified by natural
  numbers drawn from an allocation counter; `none` is the NULL pointer.
* The address of a new `SecureSocket` is what the allocator returns, a reply like
  any other: it is never the address of a live object, and it may be an address
  that was freed earlier.
* The member `m_ssl` of a `SecureSocket` is a pointer that only `initSsl`
  assigns.  `none` stands for the pointer as the constructors leave it; any
  dereference of it is undefined behaviour, reported as `Result.undefined`.
* C++ exceptions are the `Result.thrown` outcome; the state reached when the
  exception leaves the function is returned alongside it.
-/

namespace Synergy

/-! ## Constants of `openssl/ssl.h` -/

/-- Status category `SSL_ERROR_NONE` of `SSL_get_error`. -/
def SSL_ERROR_NONE : Int := 0
/-- Status category `SSL_ERROR_SSL` of `SSL_get_error`. -/
def SSL_ERROR_SSL : Int := 1
/-- Status category `SSL_ERROR_WANT_READ` of `SSL_get_error`. -/
def SSL_ERROR_WANT_READ : Int := 2
/-- Status category `SSL_ERROR_WANT_WRITE` of `SSL_get_error`. -/
def SSL_ERROR_WANT_WRITE : Int := 3
/-- Status category `SSL_ERROR_WANT_X509_LOOKUP` of `SSL_get_error`; the switch of
`checkResult` has no case for it. -/
def SSL_ERROR_WANT_X509_LOOKUP : Int := 4
/-- Status category `SSL_ERROR_SYSCALL` of `SSL_get_error`. -/
def SSL_ERROR_SYSCALL : Int := 5
/-- Status category `SSL_ERROR_ZERO_RETURN` of `SSL_get_error`. -/
def SSL_ERROR_ZERO_RETURN : Int := 6
/-- Status category `SSL_ERROR_WANT_CONNECT` of `SSL_get_error`. -/
def SSL_ERROR_WANT_CONNECT : Int := 7
/-- Status category `SSL_ERROR_WANT_ACCEPT` of `SSL_get_error`. -/
def SSL_ERROR_WANT_ACCEPT : Int := 8

/-! ## Data model -/

/-- Log levels used by the two source files. -/
inductive LogLevel where
  | CLOG_ERR
  | CLOG_INFO
  | CLOG_DEBUG2
deriving DecidableEq, Repr

/-- The two notifications `checkResult` sends: `forISocket().disconnected()` and
`forIStream().inputShutdown()`. -/
inductive EventType where
  | disconnected
  | inputShutdown
deriving DecidableEq, Repr

/-- The member function a multiplexer job is bound to.  `stream` is the generic
stream job that `TCPSocket::newJob` builds. -/
inductive JobMethod where
  | serviceConnect
  | serviceAccept
  | serviceListening
  | stream
deriving DecidableEq, Repr

/-- A multiplexer job (`ISocketMultiplexerJob*`): its identity and what it runs. -/
structure Job where
  id : Nat
  method : JobMethod
deriving DecidableEq, Repr

/-- C++ exceptions that cross the functions of the two files.  `std_exception` is
an exception object whose dynamic type is exactly `std::exception`, which is what
`throw ex;` produces from a `std::exception&` (a sliced copy: the derived class
and its message are gone). -/
inductive Exception where
  | XSocket (what : String)
  | XArchNetwork (what : String)
  | std_exception
deriving DecidableEq, Repr

/-- Outcome of a call: normal return, a C++ exception leaving the function, or
undefined behaviour (dereference of an `m_ssl` pointer that was never assigned). -/
inductive Result (α : Type) where
  | ok (value : α)
  | thrown (e : Exception)
  | undefined
deriving DecidableEq, Repr

/-- The `struct Ssl` of SecureSocket.cpp: the native context and the native
session, each a nullable pointer. -/
structure Ssl where
  m_context : Option Nat
  m_ssl : Option Nat
deriving DecidableEq, Repr

/-- The members of `SecureSocket` the code reads and writes: the `m_ssl` pointer
(`none` until `initSsl` assigns it), the ready flag, and the descriptor of the
underlying `TCPSocket` (`getSocket()->m_fd`). -/
structure SecureSocket where
  m_ssl : Option Ssl
  m_secureReady : Bool
  fd : Int
deriving DecidableEq, Repr

/-- One call to a collaborator, with the arguments the code passed. -/
inductive Effect where
  | log (level : LogLevel) (msg : String)
  | sendEvent (e : EventType)
  | sleep (seconds : Nat)
  | new_Ssl
  | delete_Ssl
  | SSL_library_init
  | OpenSSL_add_all_algorithms
  | SSL_load_error_strings
  | SSL_CTX_new (server : Bool) (ctx : Option Nat)
  | SSL_new (ctx : Option Nat) (ssl : Option Nat)
  | SSL_set_fd (ssl : Option Nat) (fd : Int)
  | SSL_accept (ssl : Option Nat)
  | SSL_connect (ssl : Option Nat)
  | SSL_read (ssl : Option Nat) (n : Nat)
  | SSL_write (ssl : Option Nat) (n : Nat)
  | SSL_get_error (ssl : Option Nat) (r : Int)
  | SSL_get_peer_certificate (ssl : Option Nat)
  | OPENSSL_free
  | X509_free
  | SSL_shutdown (ssl : Option Nat)
  | SSL_free (ssl : Nat)
  | SSL_CTX_free (ctx : Nat)
  | SSL_CTX_use_certificate_file (ctx : Option Nat) (filename : String)
  | SSL_CTX_use_PrivateKey_file (ctx : Option Nat) (filename : String)
  | SSL_CTX_check_private_key (ctx : Option Nat)
  | ERR_get_error
  | setJob (job : Job)
  | newJob (job : Job)
  | TCPSocket_close
  | acceptSocket
  | new_SecureSocket (socket : Nat)
  | delete_SecureSocket (socket : Nat)
  | addSocket (job : Job)
deriving DecidableEq, Repr

/-- Process state shared by all sockets: the allocation counter for identities,
the error queue of the TLS library (each entry is an error code with the text
`ERR_error_string_n` renders for it) and the trace of collaborator calls. -/
structure World where
  nextId : Nat
  errQueue : List (Nat × String)
  trace : List Effect
deriving DecidableEq, Repr

/-- What the TLS library answers to one handshake or transfer call: the value
`r` returned by `SSL_accept` / `SSL_connect` / `SSL_read` / `SSL_write`, the
errors that call queued, the category `SSL_get_error` reports for it, and the
peer certificate (its subject line) `SSL_get_peer_certificate` would return. -/
structure TlsReply where
  r : Int
  errorCode : Int
  queued : List (Nat × String)
  peerCert : Option String
deriving DecidableEq, Repr

/-- What the TLS library answers to the three calls of `loadCertificates`. -/
structure CertReply where
  useCertificate : Int
  usePrivateKey : Int
  checkPrivateKey : Int
deriving DecidableEq, Repr

/-- Result of a member function of `SecureSocket`: the outcome, the socket and the
world as the call leaves them. -/
structure Out (α : Type) where
  result : Result α
  socket : SecureSocket
  world : World
deriving DecidableEq, Repr

/-- Record one collaborator call. -/
def World.emit (w : World) (e : Effect) : World :=
  { w with trace := w.trace ++ [e] }

/-- Draw a fresh identity. -/
def World.fresh (w : World) : Nat × World :=
  (w.nextId, { w with nextId := w.nextId + 1 })

/-- The TLS library appends errors to its queue during a call. -/
def World.enqueue (w : World) (es : List (Nat × String)) : World :=
  { w with errQueue := w.errQueue ++ es }

/-- Number of times a notification was dispatched in a trace. -/
def eventCount (e : EventType) (t : List Effect) : Nat :=
  t.count (Effect.sendEvent e)

/-! ## SecureSocket -/

/-- Constructors `SecureSocket::SecureSocket` (both overloads): the base
`TCPSocket` owns the descriptor, `m_secureReady(false)`; `m_ssl` is not
initialised. -/
def SecureSocket.construct (fd : Int) : SecureSocket :=
  { m_ssl := none, m_secureReady := false, fd := fd }

/-- `SecureSocket::isSecureReady`. -/
def SecureSocket.isSecureReady (s : SecureSocket) : Bool :=
  s.m_secureReady

/-- `SecureSocket::getError`: `ERR_get_error()` pops the earliest queued error and
returns 0 on an empty queue; a non-zero code is rendered, otherwise the empty
string is returned. -/
def SecureSocket.getError (w : World) : String × World :=
  let w := w.emit Effect.ERR_get_error
  match w.errQueue with
  | [] => ("", w)
  | (e, text) :: rest =>
    let w := { w with errQueue := rest }
    if e ≠ 0 then (text, w) else ("", w)

/-- `SecureSocket::showError`. -/
def SecureSocket.showError (w : World) : World :=
  let (error, w) := SecureSocket.getError w
  if error ≠ "" then
    w.emit (Effect.log LogLevel.CLOG_ERR ("secure socket error: " ++ error))
  else
    w

/-- `SecureSocket::throwError`: always throws an `XSocket`; the message is the
reason, followed by the pending error text when there is one. -/
def SecureSocket.throwError (reason : String) (w : World) : Exception × World :=
  let (error, w) := SecureSocket.getError w
  if error ≠ "" then
    (Exception.XSocket (reason ++ ": " ++ error), w)
  else
    (Exception.XSocket reason, w)

/-- The message of the `XSocket` that `throwError(reason)` throws when the error
queue of the TLS library is `queue`: the reason alone, or the reason, ": " and
the text of the earliest queued error when that error has a non-zero code and a
non-empty text. -/
def SecureSocket.throwError.message (reason : String) (queue : List (Nat × String)) : String :=
  match queue with
  | [] => reason
  | (e, text) :: _ => if e ≠ 0 ∧ text ≠ "" then reason ++ ": " ++ text else reason

/-- The `switch (errorCode)` of `SecureSocket::checkResult`: the values of
`fatal` and `retry` after it and the one line it logs, if any. -/
def SecureSocket.checkResult.switch (errorCode : Int) :
    Bool × Bool × Option (LogLevel × String) :=
  if errorCode = SSL_ERROR_NONE then
    (false, false, none)
  else if errorCode = SSL_ERROR_ZERO_RETURN then
    (false, false, some (LogLevel.CLOG_DEBUG2, "secure socket error: SSL_ERROR_ZERO_RETURN"))
  else if errorCode = SSL_ERROR_WANT_READ then
    (false, true, some (LogLevel.CLOG_DEBUG2, "secure socket error: SSL_ERROR_WANT_READ"))
  else if errorCode = SSL_ERROR_WANT_WRITE then
    (false, true, some (LogLevel.CLOG_DEBUG2, "secure socket error: SSL_ERROR_WANT_WRITE"))
  else if errorCode = SSL_ERROR_WANT_CONNECT then
    (false, true, some (LogLevel.CLOG_DEBUG2, "secure socket error: SSL_ERROR_WANT_CONNECT"))
  else if errorCode = SSL_ERROR_WANT_ACCEPT then
    (false, true, some (LogLevel.CLOG_DEBUG2, "secure socket error: SSL_ERROR_WANT_ACCEPT"))
  else if errorCode = SSL_ERROR_SYSCALL then
    (true, false, some (LogLevel.CLOG_ERR, "secure socket error: SSL_ERROR_SYSCALL"))
  else if errorCode = SSL_ERROR_SSL then
    (true, false, some (LogLevel.CLOG_ERR, "secure socket error: SSL_ERROR_SSL"))
  else
    (true, false, some (LogLevel.CLOG_ERR, "secure socket error: SSL_ERROR_SSL"))

/-- Sequencing of member calls: continue with the value on a normal return,
propagate an exception or undefined behaviour otherwise. -/
def Out.bind {α β : Type} (o : Out α) (f : α → SecureSocket → World → Out β) : Out β :=
  match o.result with
  | Result.ok a => f a o.socket o.world
  | Result.thrown e => ⟨Result.thrown e, o.socket, o.world⟩
  | Result.undefined => ⟨Result.undefined, o.socket, o.world⟩

/-- Dereference of the member pointer `m_ssl` (`m_ssl->...`): undefined behaviour
when `initSsl` never assigned it. -/
def SecureSocket.deref {α : Type} (s : SecureSocket) (w : World) (k : Ssl → Out α) : Out α :=
  match s.m_ssl with
  | none => ⟨Result.undefined, s, w⟩
  | some h => k h

/-- `SecureSocket::checkResult(n, fatal, retry)`; `errorCode` is what
`SSL_get_error(m_ssl->m_ssl, n)` returns.  The value is the pair
`(fatal, retry)`. -/
def SecureSocket.checkResult (n : Int) (errorCode : Int) (s : SecureSocket) (w : World) :
    Out (Bool × Bool) :=
  s.deref w fun h =>
    let w := w.emit (Effect.SSL_get_error h.m_ssl n)
    let sw := SecureSocket.checkResult.switch errorCode
    let fatal := sw.1
    let retry := sw.2.1
    let w := match sw.2.2 with
      | some (level, msg) => w.emit (Effect.log level msg)
      | none => w
    if fatal then
      let w := SecureSocket.showError w
      let w := w.emit (Effect.sendEvent EventType.disconnected)
      let w := w.emit (Effect.sendEvent EventType.inputShutdown)
      ⟨Result.ok (fatal, retry), s, w⟩
    else
      ⟨Result.ok (fatal, retry), s, w⟩

/-- `SecureSocket::initContext(server)`; `ctxOk` tells whether `SSL_CTX_new`
returns a context (`true`) or NULL. -/
def SecureSocket.initContext (server : Bool) (ctxOk : Bool) (s : SecureSocket) (w : World) :
    Out Unit :=
  let w := w.emit Effect.SSL_library_init
  let w := w.emit Effect.OpenSSL_add_all_algorithms
  let w := w.emit Effect.SSL_load_error_strings
  s.deref w fun h =>
    if ctxOk then
      let (ctx, w) := w.fresh
      let w := w.emit (Effect.SSL_CTX_new server (some ctx))
      ⟨Result.ok (), { s with m_ssl := some { h with m_context := some ctx } }, w⟩
    else
      let w := w.emit (Effect.SSL_CTX_new server none)
      let w := SecureSocket.showError w
      ⟨Result.ok (), { s with m_ssl := some { h with m_context := none } }, w⟩

/-- `SecureSocket::initSsl(server)`: allocates a new `Ssl`, nulls both members,
then `initContext(server)`. -/
def SecureSocket.initSsl (server : Bool) (ctxOk : Bool) (s : SecureSocket) (w : World) :
    Out Unit :=
  let w := w.emit Effect.new_Ssl
  let s := { s with m_ssl := some { m_context := none, m_ssl := none } }
  SecureSocket.initContext server ctxOk s w

/-- `SecureSocket::loadCertificates(filename)`. -/
def SecureSocket.loadCertificates (filename : String) (reply : CertReply)
    (s : SecureSocket) (w : World) : Out Unit :=
  s.deref w fun h =>
    let w := w.emit (Effect.SSL_CTX_use_certificate_file h.m_context filename)
    if reply.useCertificate ≤ 0 then
      let (e, w) := SecureSocket.throwError "could not use ssl certificate" w
      ⟨Result.thrown e, s, w⟩
    else
      let w := w.emit (Effect.SSL_CTX_use_PrivateKey_file h.m_context filename)
      if reply.usePrivateKey ≤ 0 then
        let (e, w) := SecureSocket.throwError "could not use ssl private key" w
        ⟨Result.thrown e, s, w⟩
      else
        let w := w.emit (Effect.SSL_CTX_check_private_key h.m_context)
        if reply.checkPrivateKey = 0 then
          let (e, w) := SecureSocket.throwError "could not verify ssl private key" w
          ⟨Result.thrown e, s, w⟩
        else
          ⟨Result.ok (), s, w⟩

/-- `SecureSocket::createSSL`: a session is created only when there is none.
`SSL_new` returns a new session for a context and NULL for the NULL context. -/
def SecureSocket.createSSL (s : SecureSocket) (w : World) : Out Unit :=
  s.deref w fun h =>
    match h.m_ssl with
    | some _ => ⟨Result.ok (), s, w⟩
    | none =>
      match h.m_context with
      | some ctx =>
        let (ssl, w) := w.fresh
        let w := w.emit (Effect.SSL_new (some ctx) (some ssl))
        ⟨Result.ok (), { s with m_ssl := some { h with m_ssl := some ssl } }, w⟩
      | none =>
        let w := w.emit (Effect.SSL_new none none)
        ⟨Result.ok (), { s with m_ssl := some { h with m_ssl := none } }, w⟩

/-- `SecureSocket::showCertificate`; `peerCert` is what `SSL_get_peer_certificate`
returns (the subject line of the certificate, or NULL). -/
def SecureSocket.showCertificate (peerCert : Option String) (s : SecureSocket) (w : World) :
    Out Unit :=
  s.deref w fun h =>
    let w := w.emit (Effect.SSL_get_peer_certificate h.m_ssl)
    match peerCert with
    | some line =>
      let w := w.emit (Effect.log LogLevel.CLOG_INFO ("server ssl certificate info: " ++ line))
      let w := w.emit Effect.OPENSSL_free
      let w := w.emit Effect.X509_free
      ⟨Result.ok (), s, w⟩
    | none =>
      let (e, w) := SecureSocket.throwError "server has no ssl certificate" w
      ⟨Result.thrown e, s, w⟩

/-- `SecureSocket::secureAccept(int socket)`: one server-role handshake step.
The value is `retry`. -/
def SecureSocket.secureAccept_int (socket : Int) (reply : TlsReply)
    (s : SecureSocket) (w : World) : Out Bool :=
  (SecureSocket.createSSL s w).bind fun _ s w =>
  (s.deref w fun h =>
    let w := w.emit (Effect.SSL_set_fd h.m_ssl socket)
    let w := w.emit (Effect.log LogLevel.CLOG_DEBUG2 "accepting secure socket")
    let w := (w.emit (Effect.SSL_accept h.m_ssl)).enqueue reply.queued
    SecureSocket.checkResult reply.r reply.errorCode s w).bind fun fr s w =>
  let fatal := fr.1
  let retry := fr.2
  let w :=
    if fatal then
      let w := w.emit (Effect.log LogLevel.CLOG_ERR "failed to accept secure socket")
      let w := w.emit (Effect.log LogLevel.CLOG_INFO "client connection may not be secure")
      w.emit (Effect.sleep 1)
    else w
  let s := { s with m_secureReady := !retry }
  let w :=
    if s.m_secureReady then
      w.emit (Effect.log LogLevel.CLOG_INFO "accepted secure socket")
    else w
  ⟨Result.ok retry, s, w⟩

/-- `SecureSocket::secureConnect(int socket)`: one client-role handshake step.
The value is `retry`; `showCertificate` may throw after the ready flag was
assigned. -/
def SecureSocket.secureConnect_int (socket : Int) (reply : TlsReply)
    (s : SecureSocket) (w : World) : Out Bool :=
  (SecureSocket.createSSL s w).bind fun _ s w =>
  (s.deref w fun h =>
    let w := w.emit (Effect.SSL_set_fd h.m_ssl socket)
    let w := w.emit (Effect.log LogLevel.CLOG_DEBUG2 "connecting secure socket")
    let w := (w.emit (Effect.SSL_connect h.m_ssl)).enqueue reply.queued
    SecureSocket.checkResult reply.r reply.errorCode s w).bind fun fr s w =>
  let fatal := fr.1
  let retry := fr.2
  let w :=
    if fatal then
      let w := w.emit (Effect.log LogLevel.CLOG_ERR "failed to connect secure socket")
      let w := w.emit (Effect.log LogLevel.CLOG_INFO "server connection may not be secure")
      w.emit (Effect.sleep 1)
    else w
  let s := { s with m_secureReady := !retry }
  if s.m_secureReady then
    let w := w.emit (Effect.log LogLevel.CLOG_INFO "connected to secure socket")
    (SecureSocket.showCertificate reply.peerCert s w).bind fun _ s w =>
    ⟨Result.ok retry, s, w⟩
  else
    ⟨Result.ok retry, s, w⟩

/-- `SecureSocket::secureRead(buffer, n)`.  The conversion `(UInt32)r` is applied
to a positive `int` only, so it keeps the value. -/
def SecureSocket.secureRead (n : Nat) (reply : TlsReply) (s : SecureSocket) (w : World) :
    Out Nat :=
  (s.deref w fun h =>
    match h.m_ssl with
    | some ssl =>
      let w := (w.emit (Effect.SSL_read (some ssl) n)).enqueue reply.queued
      (SecureSocket.checkResult reply.r reply.errorCode s w).bind fun fr s w =>
      let retry := fr.2
      ⟨Result.ok (if retry then 0 else reply.r), s, w⟩
    | none => ⟨Result.ok (0 : Int), s, w⟩).bind fun r s w =>
  ⟨Result.ok (if r > 0 then r.toNat else 0), s, w⟩

/-- `SecureSocket::secureWrite(buffer, n)`. -/
def SecureSocket.secureWrite (n : Nat) (reply : TlsReply) (s : SecureSocket) (w : World) :
    Out Nat :=
  (s.deref w fun h =>
    match h.m_ssl with
    | some ssl =>
      let w := (w.emit (Effect.SSL_write (some ssl) n)).enqueue reply.queued
      (SecureSocket.checkResult reply.r reply.errorCode s w).bind fun fr s w =>
      let retry := fr.2
      ⟨Result.ok (if retry then 0 else reply.r), s, w⟩
    | none => ⟨Result.ok (0 : Int), s, w⟩).bind fun r s w =>
  ⟨Result.ok (if r > 0 then r.toNat else 0), s, w⟩

/-- `SecureSocket::close`: `SSL_shutdown(m_ssl->m_ssl)` whatever the session
pointer is, then `TCPSocket::close()`. -/
def SecureSocket.close (s : SecureSocket) (w : World) : Out Unit :=
  s.deref w fun h =>
    let w := w.emit (Effect.SSL_shutdown h.m_ssl)
    let w := w.emit Effect.TCPSocket_close
    ⟨Result.ok (), s, w⟩

/-- Destructor `SecureSocket::~SecureSocket`.  The object is gone afterwards, so
only the outcome and the world are returned. -/
def SecureSocket.destruct (s : SecureSocket) (w : World) : Result Unit × World :=
  match s.m_ssl with
  | none => (Result.undefined, w)
  | some h =>
    let w :=
      match h.m_ssl with
      | some ssl => (w.emit (Effect.SSL_shutdown (some ssl))).emit (Effect.SSL_free ssl)
      | none => w
    let w :=
      match h.m_context with
      | some ctx => w.emit (Effect.SSL_CTX_free ctx)
      | none => w
    (Result.ok (), w.emit Effect.delete_Ssl)

/-- `SecureSocket::secureConnect()`: installs a job bound to `serviceConnect`. -/
def SecureSocket.secureConnect (s : SecureSocket) (w : World) : Out Unit :=
  let (id, w) := w.fresh
  ⟨Result.ok (), s, w.emit (Effect.setJob ⟨id, JobMethod.serviceConnect⟩)⟩

/-- `SecureSocket::secureAccept()`: installs a job bound to `serviceAccept`. -/
def SecureSocket.secureAccept (s : SecureSocket) (w : World) : Out Unit :=
  let (id, w) := w.fresh
  ⟨Result.ok (), s, w.emit (Effect.setJob ⟨id, JobMethod.serviceAccept⟩)⟩

/-- Modelled from the spec: `TCPSocket::newJob` is not part of the two source
files; the spec calls its result "a fresh generic stream job".  It is a newly
allocated job running the generic stream service. -/
def TCPSocket.newJob (w : World) : Job × World :=
  let (id, w) := w.fresh
  (⟨id, JobMethod.stream⟩, w.emit (Effect.newJob ⟨id, JobMethod.stream⟩))

/-- `SecureSocket::serviceConnect(job, read, write, error)` with `SYSAPI_UNIX`
(the three flags are unused by the body; the lock has no effect on a single
thread of control). -/
def SecureSocket.serviceConnect (job : Job) (reply : TlsReply) (s : SecureSocket) (w : World) :
    Out Job :=
  (SecureSocket.secureConnect_int s.fd reply s w).bind fun retry s w =>
  if retry then ⟨Result.ok job, s, w⟩
  else
    let (j, w) := TCPSocket.newJob w
    ⟨Result.ok j, s, w⟩

/-- `SecureSocket::serviceAccept(job, read, write, error)` with `SYSAPI_UNIX`. -/
def SecureSocket.serviceAccept (job : Job) (reply : TlsReply) (s : SecureSocket) (w : World) :
    Out Job :=
  (SecureSocket.secureAccept_int s.fd reply s w).bind fun retry s w =>
  if retry then ⟨Result.ok job, s, w⟩
  else
    let (j, w) := TCPSocket.newJob w
    ⟨Result.ok j, s, w⟩

/-! ## Sequences of operations on one socket -/

/-- An operation the multiplexer or the stream layer performs on a socket,
together with what the TLS library answers to it. -/
inductive SocketOp where
  | serviceAccept (job : Job) (reply : TlsReply)
  | serviceConnect (job : Job) (reply : TlsReply)
  | secureRead (n : Nat) (reply : TlsReply)
  | secureWrite (n : Nat) (reply : TlsReply)
deriving DecidableEq, Repr

/-- Value returned by a `SocketOp`: a job (handshake steps) or a byte count
(transfers). -/
inductive OpValue where
  | job (j : Job)
  | count (n : Nat)
deriving DecidableEq, Repr

/-- The reply of the TLS library carried by an operation. -/
def SocketOp.reply : SocketOp → TlsReply
  | SocketOp.serviceAccept _ reply => reply
  | SocketOp.serviceConnect _ reply => reply
  | SocketOp.secureRead _ reply => reply
  | SocketOp.secureWrite _ reply => reply

/-- Handshake steps are the `serviceAccept` / `serviceConnect` invocations. -/
def SocketOp.isHandshake : SocketOp → Bool
  | SocketOp.serviceAccept _ _ => true
  | SocketOp.serviceConnect _ _ => true
  | SocketOp.secureRead _ _ => false
  | SocketOp.secureWrite _ _ => false

/-- The status category of a reply is classified fatal by `checkResult`. -/
def TlsReply.isFatal (reply : TlsReply) : Bool :=
  (SecureSocket.checkResult.switch reply.errorCode).1

/-- The status category of a reply is classified retry by `checkResult`. -/
def TlsReply.isRetry (reply : TlsReply) : Bool :=
  (SecureSocket.checkResult.switch reply.errorCode).2.1

/-- Change the value of a result, keeping socket and world. -/
def Out.map {α β : Type} (f : α → β) (o : Out α) : Out β :=
  match o.result with
  | Result.ok a => ⟨Result.ok (f a), o.socket, o.world⟩
  | Result.thrown e => ⟨Result.thrown e, o.socket, o.world⟩
  | Result.undefined => ⟨Result.undefined, o.socket, o.world⟩

/-- Perform one operation. -/
def SocketOp.apply (op : SocketOp) (s : SecureSocket) (w : World) : Out OpValue :=
  match op with
  | SocketOp.serviceAccept job reply => (s.serviceAccept job reply w).map OpValue.job
  | SocketOp.serviceConnect job reply => (s.serviceConnect job reply w).map OpValue.job
  | SocketOp.secureRead n reply => (s.secureRead n reply w).map OpValue.count
  | SocketOp.secureWrite n reply => (s.secureWrite n reply w).map OpValue.count

/-- What a run of operations produced: for each operation its outcome and the
value of the ready flag right after it, then the final socket and world. -/
structure Run where
  steps : List (Result OpValue × Bool)
  socket : SecureSocket
  world : World
deriving DecidableEq, Repr

/-- Perform the operations in order on the same socket.  The socket object
outlives an exception thrown by one of its member functions, so the run goes on
from the state the exception left. -/
def runOps : List SocketOp → SecureSocket → World → Run
  | [], s, w => ⟨[], s, w⟩
  | op :: ops, s, w =>
    let o := op.apply s w
    let rest := runOps ops o.socket o.world
    ⟨(o.result, o.socket.m_secureReady) :: rest.steps, rest.socket, rest.world⟩

/-- No handshake step classified retry comes after a handshake step that was not
classified retry.  The multiplexer only produces such sequences: a handshake job
is invoked again only when the previous invocation returned that same job, which
`serviceAccept` / `serviceConnect` do on retry alone. -/
def noRetryAfterCompletion : List SocketOp → Bool
  | [] => true
  | op :: ops =>
    if op.isHandshake && !op.reply.isRetry then
      ops.all (fun o => !(o.isHandshake && o.reply.isRetry))
    else
      noRetryAfterCompletion ops

/-- The sequences of operations the job chain issues: `serviceAccept` /
`serviceConnect` is the handshake job, and the multiplexer invokes a job again
only when its previous invocation returned that same job, which the two
functions do on retry alone (`return retry ? job : newJob()`; a step that throws
returns no job at all).  So once a handshake step is not classified retry, no
handshake step follows; transfers may come at any point. -/
def jobChain : List SocketOp → Bool
  | [] => true
  | op :: ops =>
    if op.isHandshake && !op.reply.isRetry then
      ops.all (fun o => !o.isHandshake)
    else
      jobChain ops

/-- A handshake step as the multiplexer performs it: `serviceAccept` for the
server role, `serviceConnect` for the client role, with the job it passes and
the reply of the TLS library. -/
def handshakeStep (server : Bool) (job : Job) (reply : TlsReply) : SocketOp :=
  if server then SocketOp.serviceAccept job reply else SocketOp.serviceConnect job reply

/-! ## SecureListenSocket -/

/-- The file-scope constant `s_certificateFilename`. -/
def s_certificateFilename : String := "Synergy.pem"

/-- Iteration over a `SecureSocketSet` (a `std::set` of socket pointers) visits
its elements in increasing order. -/
def SecureSocketSet.elements (s : Finset Nat) : List Nat :=
  Quot.liftOn s.val (fun l => l.insertionSort (· ≤ ·))
    (fun a b h => List.eq_of_perm_of_sorted
      ((List.perm_insertionSort _ a).trans (h.trans (List.perm_insertionSort _ b).symm))
      (List.sorted_insertionSort _ a) (List.sorted_insertionSort _ b))

/-- The member of `SecureListenSocket` the code reads and writes: the registry
`m_secureSocketSet` of the sockets it created, keyed by identity. -/
structure SecureListenSocket where
  m_secureSocketSet : Finset Nat
deriving DecidableEq

/-- The live `SecureSocket` objects, by address. -/
abbrev Heap := List (Nat × SecureSocket)

/-- Result of a member function of `SecureListenSocket`. -/
structure ListenOut (α : Type) where
  result : Result α
  listen : SecureListenSocket
  heap : Heap
  world : World
deriving DecidableEq

/-- What the collaborators answer during one `accept()`: `ARCH->acceptSocket`
returns a descriptor or throws, the address `new SecureSocket` returns (the
allocator never returns the address of a live object, and may return one that
was freed earlier), `ARCH->getProfileDirectory()`, whether `SSL_CTX_new`
succeeds, and the replies to `loadCertificates`. -/
structure AcceptReply where
  acceptSocket : Except Exception Int
  address : Nat
  profileDirectory : String
  ctxOk : Bool
  cert : CertReply

/-- The expression `delete p` for a `SecureSocket* p`: runs the destructor of the
live object at `p` and releases it.  Deleting an address that holds no live
object (a second `delete` of the same pointer) is undefined behaviour. -/
def delete_SecureSocket (p : Nat) (heap : Heap) (w : World) : Result Unit × Heap × World :=
  let w := w.emit (Effect.delete_SecureSocket p)
  match heap.lookup p with
  | some obj =>
    let (r, w) := obj.destruct w
    (r, heap.filter (fun entry => entry.1 ≠ p), w)
  | none => (Result.undefined, heap, w)

/-- The two `catch` clauses of `SecureListenSocket::accept`, entered with the
exception `e` and the local variable `socket` (NULL, or the socket built so
far).  `XArchNetwork` is taken by the first clause.  `XSocket` derives from
`std::exception` (through `XBase`), so it is taken by the second clause, whose
`throw ex;` throws a copy of static type `std::exception`.  Neither clause
touches `m_secureSocketSet`. -/
def SecureListenSocket.accept.handler (e : Exception) (socket : Option Nat)
    (l : SecureListenSocket) (heap : Heap) (w : World) : ListenOut (Option Nat) :=
  let (r, heap, w) :=
    match socket with
    | some p => delete_SecureSocket p heap w
    | none => (Result.ok (), heap, w)
  match r with
  | Result.ok _ =>
    match e with
    | Exception.XArchNetwork _ => ⟨Result.ok none, l, heap, w⟩
    | _ => ⟨Result.thrown Exception.std_exception, l, heap, w⟩
  | _ => ⟨Result.undefined, l, heap, w⟩

/-- `SecureListenSocket::accept()` with `SYSAPI_UNIX`.  The value is the address
of the new socket, or NULL.  The new socket is placed at the address the
allocator returned. -/
def SecureListenSocket.accept (reply : AcceptReply) (l : SecureListenSocket) (heap : Heap)
    (w : World) : ListenOut (Option Nat) :=
  let w := w.emit Effect.acceptSocket
  match reply.acceptSocket with
  | Except.error e => SecureListenSocket.accept.handler e none l heap w
  | Except.ok fd =>
    let p := reply.address
    let w := w.emit (Effect.new_SecureSocket p)
    let socket := SecureSocket.construct fd
    let l := { l with m_secureSocketSet := insert p l.m_secureSocketSet }
    let certificateFilename := reply.profileDirectory ++ "/" ++ s_certificateFilename
    let o := (socket.initSsl true reply.ctxOk w).bind fun _ s w =>
      (s.loadCertificates certificateFilename reply.cert w).bind fun _ s w =>
      s.secureAccept w
    let heap := (p, o.socket) :: heap.filter (fun entry => entry.1 ≠ p)
    match o.result with
    | Result.ok _ =>
      let (j, w) := o.world.fresh
      let w := w.emit (Effect.addSocket ⟨j, JobMethod.serviceListening⟩)
      ⟨Result.ok (some p), l, heap, w⟩
    | Result.thrown e => SecureListenSocket.accept.handler e (some p) l heap o.world
    | Result.undefined => ⟨Result.undefined, l, heap, o.world⟩

/-- `SecureListenSocket::deleteSocket(socket)`. -/
def SecureListenSocket.deleteSocket (socket : Nat) (l : SecureListenSocket) (heap : Heap)
    (w : World) : ListenOut Unit :=
  if socket ∈ l.m_secureSocketSet then
    let (r, heap, w) := delete_SecureSocket socket heap w
    ⟨r, { l with m_secureSocketSet := l.m_secureSocketSet.erase socket }, heap, w⟩
  else
    ⟨Result.ok (), l, heap, w⟩

/-- Destructor `SecureListenSocket::~SecureListenSocket`: `delete` of every
registry entry in iteration order, then `clear()`. -/
def SecureListenSocket.destruct (l : SecureListenSocket) (heap : Heap) (w : World) :
    ListenOut Unit :=
  let step := fun (acc : Result Unit × Heap × World) (p : Nat) =>
    let (r, heap, w) := delete_SecureSocket p acc.2.1 acc.2.2
    (match acc.1 with
      | Result.ok _ => r
      | bad => bad, heap, w)
  let acc := (SecureSocketSet.elements l.m_secureSocketSet).foldl step (Result.ok (), heap, w)
  ⟨acc.1, { l with m_secureSocketSet := ∅ }, acc.2.1, acc.2.2⟩

/-- Number of times `delete` was applied to the socket at address `p`. -/
def deleteCount (p : Nat) (t : List Effect) : Nat :=
  t.count (Effect.delete_SecureSocket p)

/-! ## Concrete states used by the examples -/

/-- A socket on descriptor 7 after `initSsl`: it owns context 0 and no
session. -/
def SecureSocket.afterInit : SecureSocket :=
  { m_ssl := some { m_context := some 0, m_ssl := none }, m_secureReady := false, fd := 7 }

/-- The world right after the `initSsl(server)` call that produced
`SecureSocket.afterInit`. -/
def World.afterInit (server : Bool) : World :=
  { nextId := 1, errQueue := [],
    trace := [Effect.new_Ssl, Effect.SSL_library_init, Effect.OpenSSL_add_all_algorithms,
      Effect.SSL_load_error_strings, Effect.SSL_CTX_new server (some 0)] }

/-- Replies during an `accept()` in which a connection is pending and the
certificate file cannot be used (`SSL_CTX_use_certificate_file` returns 0). -/
def AcceptReply.certificateMissing : AcceptReply :=
  { acceptSocket := Except.ok 7, address := 0, profileDirectory := "/home/user/.synergy",
    ctxOk := true, cert := { useCertificate := 0, usePrivateKey := 1, checkPrivateKey := 1 } }

/-- A listen socket that has accepted nothing yet. -/
def SecureListenSocket.initial : SecureListenSocket :=
  { m_secureSocketSet := ∅ }

/-- The handshake job the multiplexer passes in the examples. -/
def Job.handshake : Job :=
  { id := 100, method := JobMethod.serviceAccept }

/-- A world in which nothing has happened yet. -/
def World.initial : World :=
  { nextId := 0, errQueue := [], trace := [] }

/-- A reply of the TLS library with status category `errorCode`, return value
`r`, nothing queued and no peer certificate. -/
def TlsReply.plain (r : Int) (errorCode : Int) : TlsReply :=
  { r := r, errorCode := errorCode, queued := [], peerCert := none }

/-! ## Reading traces -/

/-- The pending error text `getError` returns for a given error queue: the text of
the earliest queued error when its code is non-zero, the empty string otherwise. -/
def SecureSocket.getError.text (queue : List (Nat × String)) : String :=
  match queue with
  | [] => ""
  | (e, text) :: _ => if e ≠ 0 then text else ""

/-- The collaborator calls one `showError()` makes when the error queue is
`queue`: `ERR_get_error`, then one error-level log line when the pending text is
non-empty. -/
def SecureSocket.showError.effects (queue : List (Nat × String)) : List Effect :=
  Effect.ERR_get_error ::
    (if SecureSocket.getError.text queue ≠ "" then
      [Effect.log LogLevel.CLOG_ERR
        ("secure socket error: " ++ SecureSocket.getError.text queue)]
    else [])

/-- The effect is a dispatch of a notification. -/
def Effect.isSendEvent : Effect → Bool
  | Effect.sendEvent _ => true
  | _ => false

/-- The effect is the creation of a session object: an `SSL_new` call that
returned a session. -/
def Effect.isSessionCreation : Effect → Bool
  | Effect.SSL_new _ (some _) => true
  | _ => false

/-- The effect installs a job on the multiplexer (`addSocket`, or `setJob` of the
plain socket, which adds the socket with that job). -/
def Effect.isJobInstall : Effect → Bool
  | Effect.addSocket _ => true
  | Effect.setJob _ => true
  | _ => false

/-- The effect is the construction of a `SecureSocket`. -/
def Effect.isSocketConstruction : Effect → Bool
  | Effect.new_SecureSocket _ => true
  | _ => false

/-- The effect re-arms the listening job: an `addSocket` with a job bound to
`serviceListening`. -/
def Effect.isListeningJob : Effect → Bool
  | Effect.addSocket job => decide (job.method = JobMethod.serviceListening)
  | _ => false

/-- The session creations of a trace, in order. -/
def sessionCreations (t : List Effect) : List Effect :=
  t.filter Effect.isSessionCreation

/-- Replies during an `accept()` in which no connection is pending:
`ARCH->acceptSocket` throws `XArchNetwork`. -/
def AcceptReply.nothingPending : AcceptReply :=
  { acceptSocket := Except.error (Exception.XArchNetwork "no pending connection"),
    address := 0, profileDirectory := "/home/user/.synergy", ctxOk := true,
    cert := { useCertificate := 1, usePrivateKey := 1, checkPrivateKey := 1 } }

/-- Replies during an `accept()` in which a connection is pending on descriptor 7,
the allocator places the new socket at address 0, and the certificate file
loads and verifies. -/
def AcceptReply.connectionPending : AcceptReply :=
  { acceptSocket := Except.ok 7, address := 0, profileDirectory := "/home/user/.synergy",
    ctxOk := true, cert := { useCertificate := 1, usePrivateKey := 1, checkPrivateKey := 1 } }

/-- The state a fresh listen socket is in after the `accept()` of
`AcceptReply.certificateMissing`: the socket built at address 0 has been deleted
by the `catch` clause and address 0 is still in the registry. -/
def SecureListenSocket.afterFailedAccept : ListenOut (Option Nat) :=
  SecureListenSocket.accept AcceptReply.certificateMissing SecureListenSocket.initial []
    World.initial

/-- The state a fresh listen socket is in after the `accept()` of
`AcceptReply.connectionPending`: one live server-role socket at address 0. -/
def SecureListenSocket.afterAccept : ListenOut (Option Nat) :=
  SecureListenSocket.accept AcceptReply.connectionPending SecureListenSocket.initial []
    World.initial

/-! ## Theorems -/

/-! ### Helper lemmas: traces -/

theorem eventCount_emit (ev : EventType) (w : World) (e : Effect) :
    eventCount ev (w.emit e).trace =
      eventCount ev w.trace + if e = Effect.sendEvent ev then 1 else 0 := by
  unfold eventCount World.emit
  simp only [List.count_append, List.count_cons, List.count_nil]
  by_cases h : e = Effect.sendEvent ev
  · simp [h]
  · have h2 : ¬ (e == Effect.sendEvent ev) = true := by simpa using h
    simp [h, h2]

theorem eventCount_enqueue (ev : EventType) (w : World) (es : List (Nat × String)) :
    eventCount ev (w.enqueue es).trace = eventCount ev w.trace := rfl

theorem getError_trace (w : World) :
    (SecureSocket.getError w).2.trace = w.trace ++ [Effect.ERR_get_error] := by
  unfold SecureSocket.getError World.emit
  rcases w with ⟨n, q, t⟩
  cases q with
  | nil => rfl
  | cons e rest =>
    rcases e with ⟨c, text⟩
    by_cases hc : c = 0 <;> simp [hc]

theorem eventCount_getError (ev : EventType) (w : World) :
    eventCount ev (SecureSocket.getError w).2.trace = eventCount ev w.trace := by
  rw [getError_trace]
  simp [eventCount, List.count_append]

theorem eventCount_showError (ev : EventType) (w : World) :
    eventCount ev (SecureSocket.showError w).trace = eventCount ev w.trace := by
  unfold SecureSocket.showError
  have h := eventCount_getError ev w
  generalize SecureSocket.getError w = p at h
  rcases p with ⟨error, w1⟩
  dsimp only at h ⊢
  split_ifs
  · rw [eventCount_emit]; simpa using h
  · exact h

theorem eventCount_throwError (ev : EventType) (reason : String) (w : World) :
    eventCount ev (SecureSocket.throwError reason w).2.trace = eventCount ev w.trace := by
  unfold SecureSocket.throwError
  have h := eventCount_getError ev w
  generalize SecureSocket.getError w = p at h
  rcases p with ⟨error, w1⟩
  dsimp only at h ⊢
  split_ifs <;> exact h


/-! ### Helper lemmas: `checkResult` -/

theorem switch_not_both (errorCode : Int) :
    ¬ ((SecureSocket.checkResult.switch errorCode).1 = true ∧
        (SecureSocket.checkResult.switch errorCode).2.1 = true) := by
  unfold SecureSocket.checkResult.switch
  split_ifs <;> simp

theorem checkResult_result (n errorCode : Int) (s : SecureSocket) (w : World) (h : Ssl)
    (hs : s.m_ssl = some h) :
    (SecureSocket.checkResult n errorCode s w).result =
      Result.ok ((SecureSocket.checkResult.switch errorCode).1,
        (SecureSocket.checkResult.switch errorCode).2.1) ∧
    (SecureSocket.checkResult n errorCode s w).socket = s := by
  unfold SecureSocket.checkResult SecureSocket.deref
  simp only [hs]
  split <;> simp

theorem checkResult_events (n errorCode : Int) (s : SecureSocket) (w : World) (h : Ssl)
    (hs : s.m_ssl = some h) (ev : EventType) :
    eventCount ev (SecureSocket.checkResult n errorCode s w).world.trace =
      eventCount ev w.trace + if (SecureSocket.checkResult.switch errorCode).1 then 1 else 0 := by
  unfold SecureSocket.checkResult SecureSocket.deref
  simp only [hs]
  have hlog : eventCount ev
      (match (SecureSocket.checkResult.switch errorCode).2.2 with
        | some (level, msg) => (w.emit (Effect.SSL_get_error h.m_ssl n)).emit (Effect.log level msg)
        | none => w.emit (Effect.SSL_get_error h.m_ssl n)).trace = eventCount ev w.trace := by
    split <;> simp [eventCount_emit]
  generalize (match (SecureSocket.checkResult.switch errorCode).2.2 with
        | some (level, msg) => (w.emit (Effect.SSL_get_error h.m_ssl n)).emit (Effect.log level msg)
        | none => w.emit (Effect.SSL_get_error h.m_ssl n)) = w1 at hlog
  split_ifs with hf
  · simp only [eventCount_emit, eventCount_showError, hlog]
    cases ev <;> simp
  · simpa using hlog


/-! ### Helper lemmas: handshake steps -/

theorem createSSL_spec (s : SecureSocket) (w : World) (h : Ssl) (hs : s.m_ssl = some h) :
    ∃ h1 : Ssl,
      (SecureSocket.createSSL s w).result = Result.ok () ∧
      (SecureSocket.createSSL s w).socket = { s with m_ssl := some h1 } ∧
      h1.m_context = h.m_context ∧
      h1.m_ssl.isSome = (h.m_ssl.isSome || h.m_context.isSome) ∧
      (SecureSocket.createSSL s w).world.errQueue = w.errQueue ∧
      ∀ ev, eventCount ev (SecureSocket.createSSL s w).world.trace = eventCount ev w.trace := by
  unfold SecureSocket.createSSL SecureSocket.deref
  simp only [hs]
  rcases h with ⟨ctx, ssl⟩
  cases ssl with
  | some x =>
    refine ⟨⟨ctx, some x⟩, rfl, ?_, rfl, by simp, rfl, fun ev => rfl⟩
    rcases s with ⟨m, r, fd⟩
    simp at hs
    simp [hs]
  | none =>
    cases ctx with
    | some c =>
      exact ⟨⟨some c, some w.nextId⟩, rfl, rfl, rfl, by simp, rfl,
        fun ev => by simp [World.fresh, World.emit, eventCount, List.count_append]⟩
    | none =>
      exact ⟨⟨none, none⟩, rfl, rfl, rfl, by simp, rfl,
        fun ev => by simp [World.emit, eventCount, List.count_append]⟩

theorem secureAccept_int_spec (socket : Int) (reply : TlsReply) (s : SecureSocket) (w : World)
    (h : Ssl) (hs : s.m_ssl = some h) :
    ∃ h1 : Ssl,
      (SecureSocket.secureAccept_int socket reply s w).result = Result.ok reply.isRetry ∧
      (SecureSocket.secureAccept_int socket reply s w).socket =
        { s with m_ssl := some h1, m_secureReady := !reply.isRetry } ∧
      h1.m_ssl.isSome = (h.m_ssl.isSome || h.m_context.isSome) ∧
      ∀ ev, eventCount ev (SecureSocket.secureAccept_int socket reply s w).world.trace =
        eventCount ev w.trace + if reply.isFatal then 1 else 0 := by
  obtain ⟨h1, hr, hsock, -, hsome, -, hev⟩ := createSSL_spec s w h hs
  refine ⟨h1, ?_⟩
  unfold SecureSocket.secureAccept_int
  generalize SecureSocket.createSSL s w = o at hr hsock hev
  rcases o with ⟨r0, s0, w0⟩
  simp only at hr hsock hev
  subst hr hsock
  simp only [Out.bind, SecureSocket.deref]
  have hc := checkResult_result reply.r reply.errorCode
    { m_ssl := some h1, m_secureReady := s.m_secureReady, fd := s.fd }
    ((((w0.emit (Effect.SSL_set_fd h1.m_ssl socket)).emit
      (Effect.log LogLevel.CLOG_DEBUG2 "accepting secure socket")).emit
      (Effect.SSL_accept h1.m_ssl)).enqueue reply.queued) h1 rfl
  have hce := checkResult_events reply.r reply.errorCode
    { m_ssl := some h1, m_secureReady := s.m_secureReady, fd := s.fd }
    ((((w0.emit (Effect.SSL_set_fd h1.m_ssl socket)).emit
      (Effect.log LogLevel.CLOG_DEBUG2 "accepting secure socket")).emit
      (Effect.SSL_accept h1.m_ssl)).enqueue reply.queued) h1 rfl
  generalize SecureSocket.checkResult reply.r reply.errorCode
    { m_ssl := some h1, m_secureReady := s.m_secureReady, fd := s.fd }
    ((((w0.emit (Effect.SSL_set_fd h1.m_ssl socket)).emit
      (Effect.log LogLevel.CLOG_DEBUG2 "accepting secure socket")).emit
      (Effect.SSL_accept h1.m_ssl)).enqueue reply.queued) = c at hc hce
  rcases c with ⟨rc, sc, wc⟩
  obtain ⟨hc1, hc2⟩ := hc
  simp only at hc1 hc2 hce
  subst hc1 hc2
  simp only [eventCount_enqueue, eventCount_emit, hev] at hce
  refine ⟨rfl, rfl, hsome, fun ev => ?_⟩
  have hce1 := hce ev
  simp only [TlsReply.isFatal]
  split_ifs <;> simp_all [eventCount_emit]


theorem throwError_is_XSocket (reason : String) (w : World) :
    ∃ what, (SecureSocket.throwError reason w).1 = Exception.XSocket what := by
  unfold SecureSocket.throwError
  generalize SecureSocket.getError w = p
  rcases p with ⟨error, w1⟩
  dsimp only
  split_ifs
  · exact ⟨_, rfl⟩
  · exact ⟨_, rfl⟩

theorem showCertificate_spec (peerCert : Option String) (s : SecureSocket) (w : World)
    (h : Ssl) (hs : s.m_ssl = some h) :
    (SecureSocket.showCertificate peerCert s w).socket = s ∧
    (∀ ev, eventCount ev (SecureSocket.showCertificate peerCert s w).world.trace =
      eventCount ev w.trace) ∧
    (∀ line, peerCert = some line →
      (SecureSocket.showCertificate peerCert s w).result = Result.ok ()) ∧
    (peerCert = none → ∃ what,
      (SecureSocket.showCertificate peerCert s w).result =
        Result.thrown (Exception.XSocket what)) := by
  unfold SecureSocket.showCertificate SecureSocket.deref
  simp only [hs]
  cases peerCert with
  | some line =>
    refine ⟨rfl, fun ev => ?_, fun _ _ => rfl, fun hn => by simp at hn⟩
    simp [eventCount_emit]
  | none =>
    obtain ⟨what, hw⟩ := throwError_is_XSocket "server has no ssl certificate"
      (w.emit (Effect.SSL_get_peer_certificate h.m_ssl))
    have he := fun ev => eventCount_throwError ev "server has no ssl certificate"
      (w.emit (Effect.SSL_get_peer_certificate h.m_ssl))
    generalize SecureSocket.throwError "server has no ssl certificate"
      (w.emit (Effect.SSL_get_peer_certificate h.m_ssl)) = p at hw he
    rcases p with ⟨e, w1⟩
    simp only at hw he
    subst hw
    refine ⟨rfl, fun ev => ?_, fun line hl => by simp at hl, fun _ => ⟨what, rfl⟩⟩
    simpa [eventCount_emit] using he ev

theorem secureConnect_int_spec (socket : Int) (reply : TlsReply) (s : SecureSocket) (w : World)
    (h : Ssl) (hs : s.m_ssl = some h) :
    ∃ h1 : Ssl,
      (SecureSocket.secureConnect_int socket reply s w).socket =
        { s with m_ssl := some h1, m_secureReady := !reply.isRetry } ∧
      h1.m_ssl.isSome = (h.m_ssl.isSome || h.m_context.isSome) ∧
      (∀ ev, eventCount ev (SecureSocket.secureConnect_int socket reply s w).world.trace =
        eventCount ev w.trace + if reply.isFatal then 1 else 0) ∧
      (reply.isRetry = true →
        (SecureSocket.secureConnect_int socket reply s w).result = Result.ok true) ∧
      (reply.isRetry = false → ∀ line, reply.peerCert = some line →
        (SecureSocket.secureConnect_int socket reply s w).result = Result.ok false) ∧
      (reply.isRetry = false → reply.peerCert = none → ∃ what,
        (SecureSocket.secureConnect_int socket reply s w).result =
          Result.thrown (Exception.XSocket what)) := by
  obtain ⟨h1, hr, hsock, -, hsome, -, hev⟩ := createSSL_spec s w h hs
  refine ⟨h1, ?_⟩
  unfold SecureSocket.secureConnect_int
  generalize SecureSocket.createSSL s w = o at hr hsock hev
  rcases o with ⟨r0, s0, w0⟩
  simp only at hr hsock hev
  subst hr hsock
  simp only [Out.bind, SecureSocket.deref]
  have hc := checkResult_result reply.r reply.errorCode
    { m_ssl := some h1, m_secureReady := s.m_secureReady, fd := s.fd }
    ((((w0.emit (Effect.SSL_set_fd h1.m_ssl socket)).emit
      (Effect.log LogLevel.CLOG_DEBUG2 "connecting secure socket")).emit
      (Effect.SSL_connect h1.m_ssl)).enqueue reply.queued) h1 rfl
  have hce := checkResult_events reply.r reply.errorCode
    { m_ssl := some h1, m_secureReady := s.m_secureReady, fd := s.fd }
    ((((w0.emit (Effect.SSL_set_fd h1.m_ssl socket)).emit
      (Effect.log LogLevel.CLOG_DEBUG2 "connecting secure socket")).emit
      (Effect.SSL_connect h1.m_ssl)).enqueue reply.queued) h1 rfl
  generalize SecureSocket.checkResult reply.r reply.errorCode
    { m_ssl := some h1, m_secureReady := s.m_secureReady, fd := s.fd }
    ((((w0.emit (Effect.SSL_set_fd h1.m_ssl socket)).emit
      (Effect.log LogLevel.CLOG_DEBUG2 "connecting secure socket")).emit
      (Effect.SSL_connect h1.m_ssl)).enqueue reply.queued) = c at hc hce
  rcases c with ⟨rc, sc, wc⟩
  obtain ⟨hc1, hc2⟩ := hc
  simp only at hc1 hc2 hce
  subst hc1 hc2
  simp only [eventCount_enqueue, eventCount_emit, hev] at hce
  simp only [TlsReply.isFatal, TlsReply.isRetry]
  cases hretry : (SecureSocket.checkResult.switch reply.errorCode).2.1 with
  | true =>
    refine ⟨by simp, hsome, fun ev => ?_, by simp, by simp, by simp⟩
    have hce1 := hce ev
    split_ifs <;> simp_all [eventCount_emit]
  | false =>
    simp only [Bool.not_false, if_true]
    have hwz : ∀ ev, eventCount ev
        ((if (SecureSocket.checkResult.switch reply.errorCode).1 = true then
            ((wc.emit (Effect.log LogLevel.CLOG_ERR "failed to connect secure socket")).emit
              (Effect.log LogLevel.CLOG_INFO "server connection may not be secure")).emit
              (Effect.sleep 1)
          else wc).emit
          (Effect.log LogLevel.CLOG_INFO "connected to secure socket")).trace =
        eventCount ev wc.trace := by
      intro ev
      split_ifs <;> simp [eventCount_emit]
    generalize ((if (SecureSocket.checkResult.switch reply.errorCode).1 = true then
            ((wc.emit (Effect.log LogLevel.CLOG_ERR "failed to connect secure socket")).emit
              (Effect.log LogLevel.CLOG_INFO "server connection may not be secure")).emit
              (Effect.sleep 1)
          else wc).emit
          (Effect.log LogLevel.CLOG_INFO "connected to secure socket")) = wz at hwz
    obtain ⟨hs1, hs2, hs3, hs4⟩ := showCertificate_spec reply.peerCert
      { m_ssl := some h1, m_secureReady := true, fd := s.fd } wz h1 rfl
    generalize SecureSocket.showCertificate reply.peerCert
      { m_ssl := some h1, m_secureReady := true, fd := s.fd } wz = sc at hs1 hs2 hs3 hs4
    rcases sc with ⟨rs, ss, ws⟩
    simp only at hs1 hs2 hs3 hs4
    subst hs1
    have hcount : ∀ ev, eventCount ev ws.trace =
        eventCount ev w.trace +
          if (SecureSocket.checkResult.switch reply.errorCode).1 = true then 1 else 0 := by
      intro ev
      rw [hs2 ev, hwz ev, hce ev]
      simp
    cases hp : reply.peerCert with
    | some line =>
      have hrs := hs3 line hp
      subst hrs
      exact ⟨rfl, hsome, hcount, by simp, fun _ _ _ => rfl, by simp⟩
    | none =>
      obtain ⟨what, hrs⟩ := hs4 hp
      subst hrs
      exact ⟨rfl, hsome, hcount, by simp, by simp, fun _ _ => ⟨what, rfl⟩⟩


/-! ### Helper lemmas: transfers -/

theorem secureRead_no_session (n : Nat) (reply : TlsReply) (s : SecureSocket) (w : World)
    (h : Ssl) (hs : s.m_ssl = some h) (hn : h.m_ssl = none) :
    SecureSocket.secureRead n reply s w = ⟨Result.ok 0, s, w⟩ := by
  unfold SecureSocket.secureRead SecureSocket.deref
  simp [hs, hn, Out.bind]

theorem secureWrite_no_session (n : Nat) (reply : TlsReply) (s : SecureSocket) (w : World)
    (h : Ssl) (hs : s.m_ssl = some h) (hn : h.m_ssl = none) :
    SecureSocket.secureWrite n reply s w = ⟨Result.ok 0, s, w⟩ := by
  unfold SecureSocket.secureWrite SecureSocket.deref
  simp [hs, hn, Out.bind]

theorem secureRead_session (n : Nat) (reply : TlsReply) (s : SecureSocket) (w : World)
    (h : Ssl) (hs : s.m_ssl = some h) (ssl : Nat) (hn : h.m_ssl = some ssl) :
    (SecureSocket.secureRead n reply s w).result =
      Result.ok (if reply.isRetry then 0 else if reply.r > 0 then reply.r.toNat else 0) ∧
    (SecureSocket.secureRead n reply s w).socket = s ∧
    ∀ ev, eventCount ev (SecureSocket.secureRead n reply s w).world.trace =
      eventCount ev w.trace + if reply.isFatal then 1 else 0 := by
  unfold SecureSocket.secureRead SecureSocket.deref
  simp only [hs, hn]
  have hc := checkResult_result reply.r reply.errorCode s
    ((w.emit (Effect.SSL_read (some ssl) n)).enqueue reply.queued) h hs
  have hce := checkResult_events reply.r reply.errorCode s
    ((w.emit (Effect.SSL_read (some ssl) n)).enqueue reply.queued) h hs
  generalize SecureSocket.checkResult reply.r reply.errorCode s
    ((w.emit (Effect.SSL_read (some ssl) n)).enqueue reply.queued) = c at hc hce
  rcases c with ⟨rc, sc, wc⟩
  obtain ⟨hc1, hc2⟩ := hc
  simp only at hc1 hc2 hce
  subst hc1 hc2
  simp only [eventCount_enqueue, eventCount_emit] at hce
  simp only [Out.bind, TlsReply.isRetry, TlsReply.isFatal]
  refine ⟨?_, trivial, fun ev => ?_⟩
  · split_ifs <;> simp_all
  · simpa using hce ev

theorem secureWrite_session (n : Nat) (reply : TlsReply) (s : SecureSocket) (w : World)
    (h : Ssl) (hs : s.m_ssl = some h) (ssl : Nat) (hn : h.m_ssl = some ssl) :
    (SecureSocket.secureWrite n reply s w).result =
      Result.ok (if reply.isRetry then 0 else if reply.r > 0 then reply.r.toNat else 0) ∧
    (SecureSocket.secureWrite n reply s w).socket = s ∧
    ∀ ev, eventCount ev (SecureSocket.secureWrite n reply s w).world.trace =
      eventCount ev w.trace + if reply.isFatal then 1 else 0 := by
  unfold SecureSocket.secureWrite SecureSocket.deref
  simp only [hs, hn]
  have hc := checkResult_result reply.r reply.errorCode s
    ((w.emit (Effect.SSL_write (some ssl) n)).enqueue reply.queued) h hs
  have hce := checkResult_events reply.r reply.errorCode s
    ((w.emit (Effect.SSL_write (some ssl) n)).enqueue reply.queued) h hs
  generalize SecureSocket.checkResult reply.r reply.errorCode s
    ((w.emit (Effect.SSL_write (some ssl) n)).enqueue reply.queued) = c at hc hce
  rcases c with ⟨rc, sc, wc⟩
  obtain ⟨hc1, hc2⟩ := hc
  simp only at hc1 hc2 hce
  subst hc1 hc2
  simp only [eventCount_enqueue, eventCount_emit] at hce
  simp only [Out.bind, TlsReply.isRetry, TlsReply.isFatal]
  refine ⟨?_, trivial, fun ev => ?_⟩
  · split_ifs <;> simp_all
  · simpa using hce ev

/-! ### Helper lemmas: service functions -/

theorem newJob_events (ev : EventType) (w : World) :
    eventCount ev (TCPSocket.newJob w).2.trace = eventCount ev w.trace := by
  simp [TCPSocket.newJob, World.fresh, eventCount_emit]

theorem serviceAccept_spec (job : Job) (reply : TlsReply) (s : SecureSocket) (w : World)
    (h : Ssl) (hs : s.m_ssl = some h) :
    ∃ h1 : Ssl,
      (SecureSocket.serviceAccept job reply s w).socket =
        { s with m_ssl := some h1, m_secureReady := !reply.isRetry } ∧
      h1.m_ssl.isSome = (h.m_ssl.isSome || h.m_context.isSome) ∧
      (∀ ev, eventCount ev (SecureSocket.serviceAccept job reply s w).world.trace =
        eventCount ev w.trace + if reply.isFatal then 1 else 0) ∧
      (reply.isRetry = true →
        (SecureSocket.serviceAccept job reply s w).result = Result.ok job) ∧
      (reply.isRetry = false → ∃ id,
        (SecureSocket.serviceAccept job reply s w).result =
          Result.ok ⟨id, JobMethod.stream⟩) := by
  obtain ⟨h1, hr, hsock, hsome, hev⟩ := secureAccept_int_spec s.fd reply s w h hs
  refine ⟨h1, ?_⟩
  unfold SecureSocket.serviceAccept
  generalize SecureSocket.secureAccept_int s.fd reply s w = o at hr hsock hev
  rcases o with ⟨r0, s0, w0⟩
  simp only at hr hsock hev
  subst hr hsock
  simp only [Out.bind]
  cases hretry : reply.isRetry with
  | true => exact ⟨rfl, hsome, by simpa using hev, by simp, by simp⟩
  | false =>
    refine ⟨rfl, hsome, fun ev => ?_, by simp, fun _ => ⟨w0.nextId, rfl⟩⟩
    simp only [Bool.false_eq_true, if_false]
    rw [newJob_events, hev]

theorem serviceConnect_spec (job : Job) (reply : TlsReply) (s : SecureSocket) (w : World)
    (h : Ssl) (hs : s.m_ssl = some h) :
    ∃ h1 : Ssl,
      (SecureSocket.serviceConnect job reply s w).socket =
        { s with m_ssl := some h1, m_secureReady := !reply.isRetry } ∧
      h1.m_ssl.isSome = (h.m_ssl.isSome || h.m_context.isSome) ∧
      (∀ ev, eventCount ev (SecureSocket.serviceConnect job reply s w).world.trace =
        eventCount ev w.trace + if reply.isFatal then 1 else 0) ∧
      (reply.isRetry = true →
        (SecureSocket.serviceConnect job reply s w).result = Result.ok job) ∧
      (reply.isRetry = false → ∀ line, reply.peerCert = some line → ∃ id,
        (SecureSocket.serviceConnect job reply s w).result =
          Result.ok ⟨id, JobMethod.stream⟩) ∧
      (reply.isRetry = false → reply.peerCert = none → ∃ what,
        (SecureSocket.serviceConnect job reply s w).result =
          Result.thrown (Exception.XSocket what)) := by
  obtain ⟨h1, hsock, hsome, hev, hr1, hr2, hr3⟩ := secureConnect_int_spec s.fd reply s w h hs
  refine ⟨h1, ?_⟩
  unfold SecureSocket.serviceConnect
  generalize SecureSocket.secureConnect_int s.fd reply s w = o at hsock hev hr1 hr2 hr3
  rcases o with ⟨r0, s0, w0⟩
  simp only at hsock hev hr1 hr2 hr3
  subst hsock
  cases hretry : reply.isRetry with
  | true =>
    have := hr1 hretry
    subst this
    simp only [Out.bind]
    exact ⟨rfl, hsome, by simpa using hev, by simp, by simp, by simp⟩
  | false =>
    cases hp : reply.peerCert with
    | some line =>
      have := hr2 hretry line hp
      subst this
      simp only [Out.bind]
      refine ⟨rfl, hsome, fun ev => ?_, by simp, fun _ _ _ => ⟨w0.nextId, rfl⟩, by simp⟩
      simp only [Bool.false_eq_true, if_false]
      rw [newJob_events, hev]
    | none =>
      obtain ⟨what, hw⟩ := hr3 hretry hp
      subst hw
      simp only [Out.bind]
      exact ⟨trivial, hsome, hev, by simp, by simp, fun _ _ => ⟨what, rfl⟩⟩


/-! ### The concrete states are the ones the code produces -/

theorem afterInit_eq (server : Bool) :
    SecureSocket.initSsl server true (SecureSocket.construct 7) World.initial =
      ⟨Result.ok (), SecureSocket.afterInit, World.afterInit server⟩ := by
  cases server <;> rfl

/-! ### C1 -/

/-- C1: on a socket whose handle exists, `checkResult` returns normally with the
pair (fatal, retry) of the table: `SSL_ERROR_NONE` and `SSL_ERROR_ZERO_RETURN`
give (false, false); the four WANT categories read, write, connect, accept give
(false, true); every other category, among them `SSL_ERROR_SYSCALL` and
`SSL_ERROR_SSL`, gives (true, false); fatal and retry are never both true. -/
theorem checkResult_table (n errorCode : Int) (s : SecureSocket) (w : World) (h : Ssl)
    (hs : s.m_ssl = some h) :
    ∃ fatal retry : Bool,
      (SecureSocket.checkResult n errorCode s w).result = Result.ok (fatal, retry) ∧
      ((errorCode = SSL_ERROR_NONE ∨ errorCode = SSL_ERROR_ZERO_RETURN) →
        fatal = false ∧ retry = false) ∧
      ((errorCode = SSL_ERROR_WANT_READ ∨ errorCode = SSL_ERROR_WANT_WRITE ∨
          errorCode = SSL_ERROR_WANT_CONNECT ∨ errorCode = SSL_ERROR_WANT_ACCEPT) →
        fatal = false ∧ retry = true) ∧
      (¬ (errorCode = SSL_ERROR_NONE ∨ errorCode = SSL_ERROR_ZERO_RETURN ∨
          errorCode = SSL_ERROR_WANT_READ ∨ errorCode = SSL_ERROR_WANT_WRITE ∨
          errorCode = SSL_ERROR_WANT_CONNECT ∨ errorCode = SSL_ERROR_WANT_ACCEPT) →
        fatal = true ∧ retry = false) ∧
      ¬ (fatal = true ∧ retry = true) := by
  refine ⟨_, _, (checkResult_result n errorCode s w h hs).1, ?_⟩
  unfold SecureSocket.checkResult.switch
  simp only [SSL_ERROR_NONE, SSL_ERROR_ZERO_RETURN, SSL_ERROR_WANT_READ, SSL_ERROR_WANT_WRITE,
    SSL_ERROR_WANT_CONNECT, SSL_ERROR_WANT_ACCEPT, SSL_ERROR_SYSCALL, SSL_ERROR_SSL]
  split_ifs <;> simp_all

/-- Witness for C1: the table at `SSL_ERROR_WANT_READ` on an initialised socket. -/
theorem checkResult_table_witness :
    SecureSocket.afterInit.m_ssl = some ⟨some 0, none⟩ ∧
    ∃ fatal retry : Bool,
      (SecureSocket.checkResult (-1) SSL_ERROR_WANT_READ SecureSocket.afterInit
        (World.afterInit true)).result = Result.ok (fatal, retry) ∧
      fatal = false ∧ retry = true := by
  obtain ⟨fatal, retry, hres, -, hwant, -, -⟩ :=
    checkResult_table (-1) SSL_ERROR_WANT_READ SecureSocket.afterInit (World.afterInit true)
      ⟨some 0, none⟩ rfl
  exact ⟨rfl, fatal, retry, hres, hwant (Or.inl rfl)⟩

/-! ### C2 -/

theorem apply_handshakeStep_retry (server : Bool) (job : Job) (reply : TlsReply)
    (s : SecureSocket) (w : World) (h : Ssl) (hs : s.m_ssl = some h)
    (hr : reply.isRetry = true) :
    ∃ h1 : Ssl,
      ((handshakeStep server job reply).apply s w).result = Result.ok (OpValue.job job) ∧
      ((handshakeStep server job reply).apply s w).socket.m_ssl = some h1 ∧
      ((handshakeStep server job reply).apply s w).socket.m_secureReady = false := by
  cases server with
  | true =>
    obtain ⟨h1, hsock, -, -, hres, -⟩ := serviceAccept_spec job reply s w h hs
    refine ⟨h1, ?_⟩
    simp only [handshakeStep, if_true, SocketOp.apply, Out.map]
    rw [hres hr]
    simp [hsock, hr]
  | false =>
    obtain ⟨h1, hsock, -, -, hres, -, -⟩ := serviceConnect_spec job reply s w h hs
    refine ⟨h1, ?_⟩
    simp only [handshakeStep, Bool.false_eq_true, if_false, SocketOp.apply, Out.map]
    rw [hres hr]
    simp [hsock, hr]

/-- C2: on a socket whose handle exists, for every finite sequence of handshake
steps (each a `serviceAccept` or a `serviceConnect` invocation with the job the
multiplexer passes) all of whose TLS outcomes are classified retry, every
invocation returns normally with the very job it was passed, and the ready flag
is false after each step. -/
theorem retry_steps_return_same_job (calls : List (Bool × Job × TlsReply))
    (s : SecureSocket) (w : World) (h : Ssl) (hs : s.m_ssl = some h)
    (hretry : ∀ c ∈ calls, c.2.2.isRetry = true) :
    (runOps (calls.map fun c => handshakeStep c.1 c.2.1 c.2.2) s w).steps =
      calls.map fun c => (Result.ok (OpValue.job c.2.1), false) := by
  induction calls generalizing s w h with
  | nil => rfl
  | cons c rest ih =>
    obtain ⟨h1, hres, hssl, hready⟩ :=
      apply_handshakeStep_retry c.1 c.2.1 c.2.2 s w h hs (hretry c (List.mem_cons_self c rest))
    have ih1 := ih ((handshakeStep c.1 c.2.1 c.2.2).apply s w).socket
      ((handshakeStep c.1 c.2.1 c.2.2).apply s w).world h1 hssl
      (fun d hd => hretry d (List.mem_cons_of_mem c hd))
    simp only [List.map_cons, runOps, ih1, hres, hready]

/-- Witness for C2: a server-role socket stepped twice while the library wants
to read, then to write. -/
theorem retry_steps_return_same_job_witness :
    (runOps
      [SocketOp.serviceAccept Job.handshake (TlsReply.plain (-1) SSL_ERROR_WANT_READ),
       SocketOp.serviceAccept Job.handshake (TlsReply.plain (-1) SSL_ERROR_WANT_WRITE)]
      SecureSocket.afterInit (World.afterInit true)).steps =
    [(Result.ok (OpValue.job Job.handshake), false),
     (Result.ok (OpValue.job Job.handshake), false)] :=
  retry_steps_return_same_job
    [(true, Job.handshake, TlsReply.plain (-1) SSL_ERROR_WANT_READ),
     (true, Job.handshake, TlsReply.plain (-1) SSL_ERROR_WANT_WRITE)]
    SecureSocket.afterInit (World.afterInit true) ⟨some 0, none⟩ rfl (by decide)


/-! ### C3 -/

/-- C3 (failing input): a server-role socket right after `initSsl`, one
`serviceAccept` step for which the library reports `SSL_ERROR_SYSCALL`.  The
step returns a fresh stream job, but the ready flag is true after it, and the
log holds "failed to accept secure socket" followed by "accepted secure
socket".  In client role the same fatal step without a peer certificate does
not return a job at all: it throws. -/
theorem fatal_step_sets_ready :
    (SecureSocket.serviceAccept Job.handshake (TlsReply.plain (-1) SSL_ERROR_SYSCALL)
      SecureSocket.afterInit (World.afterInit true)).result =
        Result.ok ⟨2, JobMethod.stream⟩ ∧
    (SecureSocket.serviceAccept Job.handshake (TlsReply.plain (-1) SSL_ERROR_SYSCALL)
      SecureSocket.afterInit (World.afterInit true)).socket.m_secureReady = true ∧
    Effect.log LogLevel.CLOG_ERR "failed to accept secure socket" ∈
      (SecureSocket.serviceAccept Job.handshake (TlsReply.plain (-1) SSL_ERROR_SYSCALL)
        SecureSocket.afterInit (World.afterInit true)).world.trace ∧
    Effect.log LogLevel.CLOG_INFO "accepted secure socket" ∈
      (SecureSocket.serviceAccept Job.handshake (TlsReply.plain (-1) SSL_ERROR_SYSCALL)
        SecureSocket.afterInit (World.afterInit true)).world.trace ∧
    (SecureSocket.serviceConnect Job.handshake (TlsReply.plain (-1) SSL_ERROR_SYSCALL)
      SecureSocket.afterInit (World.afterInit false)).result =
        Result.thrown (Exception.XSocket "server has no ssl certificate") ∧
    (SecureSocket.serviceConnect Job.handshake (TlsReply.plain (-1) SSL_ERROR_SYSCALL)
      SecureSocket.afterInit (World.afterInit false)).socket.m_secureReady = true := by
  decide


/-! ### C4 -/

theorem switch_none : SecureSocket.checkResult.switch SSL_ERROR_NONE = (false, false, none) := by
  decide

/-- C4 (counterexample): a client-role socket right after `initSsl`, one
`serviceConnect` step for which the library reports success and no peer
certificate.  The step throws the socket error "server has no ssl
certificate", and the ready flag is true, not false, once it has been thrown. -/
theorem missing_certificate_leaves_ready_true :
    (SecureSocket.serviceConnect Job.handshake (TlsReply.plain 1 SSL_ERROR_NONE)
      SecureSocket.afterInit (World.afterInit false)).result =
        Result.thrown (Exception.XSocket "server has no ssl certificate") ∧
    (SecureSocket.serviceConnect Job.handshake (TlsReply.plain 1 SSL_ERROR_NONE)
      SecureSocket.afterInit (World.afterInit false)).socket.m_secureReady = true := by
  decide

theorem emit_errQueue (w : World) (e : Effect) : (w.emit e).errQueue = w.errQueue := rfl

theorem throwError_message (reason : String) (w : World) :
    (SecureSocket.throwError reason w).1 =
      Exception.XSocket (SecureSocket.throwError.message reason w.errQueue) := by
  rcases w with ⟨next, q, t⟩
  unfold SecureSocket.throwError SecureSocket.getError SecureSocket.throwError.message World.emit
  rcases q with _ | ⟨⟨e, text⟩, rest⟩
  · simp
  · by_cases he : e = 0
    · simp [he]
    · by_cases ht : text = ""
      · simp [he, ht]
      · simp [he, ht]

theorem checkResult_queue (n errorCode : Int) (s : SecureSocket) (w : World) (h : Ssl)
    (hs : s.m_ssl = some h) (hf : (SecureSocket.checkResult.switch errorCode).1 = false) :
    (SecureSocket.checkResult n errorCode s w).world.errQueue = w.errQueue := by
  unfold SecureSocket.checkResult SecureSocket.deref
  simp only [hs, hf, Bool.false_eq_true, if_false]
  split <;> rfl

theorem showCertificate_none (s : SecureSocket) (w : World) (h : Ssl) (hs : s.m_ssl = some h) :
    (SecureSocket.showCertificate none s w).result =
      Result.thrown (Exception.XSocket
        (SecureSocket.throwError.message "server has no ssl certificate" w.errQueue)) := by
  unfold SecureSocket.showCertificate SecureSocket.deref
  simp only [hs]
  have hm := throwError_message "server has no ssl certificate"
    (w.emit (Effect.SSL_get_peer_certificate h.m_ssl))
  rw [emit_errQueue] at hm
  generalize SecureSocket.throwError "server has no ssl certificate"
    (w.emit (Effect.SSL_get_peer_certificate h.m_ssl)) = p at hm
  rcases p with ⟨e, w1⟩
  simp only at hm
  subst hm
  rfl

theorem secureConnect_int_no_certificate (socket : Int) (reply : TlsReply) (s : SecureSocket)
    (w : World) (h : Ssl) (hs : s.m_ssl = some h) (hretry : reply.isRetry = false)
    (hfatal : reply.isFatal = false) (hcert : reply.peerCert = none) :
    (SecureSocket.secureConnect_int socket reply s w).result =
      Result.thrown (Exception.XSocket
        (SecureSocket.throwError.message "server has no ssl certificate"
          (w.errQueue ++ reply.queued))) := by
  obtain ⟨h1, hr, hsock, -, -, hq, -⟩ := createSSL_spec s w h hs
  unfold SecureSocket.secureConnect_int
  generalize SecureSocket.createSSL s w = o at hr hsock hq
  rcases o with ⟨r0, s0, w0⟩
  simp only at hr hsock hq
  subst hr hsock
  simp only [Out.bind, SecureSocket.deref]
  have hc := checkResult_result reply.r reply.errorCode
    { m_ssl := some h1, m_secureReady := s.m_secureReady, fd := s.fd }
    ((((w0.emit (Effect.SSL_set_fd h1.m_ssl socket)).emit
      (Effect.log LogLevel.CLOG_DEBUG2 "connecting secure socket")).emit
      (Effect.SSL_connect h1.m_ssl)).enqueue reply.queued) h1 rfl
  have hcq := checkResult_queue reply.r reply.errorCode
    { m_ssl := some h1, m_secureReady := s.m_secureReady, fd := s.fd }
    ((((w0.emit (Effect.SSL_set_fd h1.m_ssl socket)).emit
      (Effect.log LogLevel.CLOG_DEBUG2 "connecting secure socket")).emit
      (Effect.SSL_connect h1.m_ssl)).enqueue reply.queued) h1 rfl hfatal
  generalize SecureSocket.checkResult reply.r reply.errorCode
    { m_ssl := some h1, m_secureReady := s.m_secureReady, fd := s.fd }
    ((((w0.emit (Effect.SSL_set_fd h1.m_ssl socket)).emit
      (Effect.log LogLevel.CLOG_DEBUG2 "connecting secure socket")).emit
      (Effect.SSL_connect h1.m_ssl)).enqueue reply.queued) = c at hc hcq
  rcases c with ⟨rc, sc, wc⟩
  obtain ⟨hc1, hc2⟩ := hc
  simp only at hc1 hc2 hcq
  subst hc1 hc2
  simp only [TlsReply.isFatal, TlsReply.isRetry] at hretry hfatal
  simp only [hretry, hfatal, Bool.not_false, if_true, Bool.false_eq_true, if_false, hcert]
  have hsc := showCertificate_none { m_ssl := some h1, m_secureReady := true, fd := s.fd }
    (wc.emit (Effect.log LogLevel.CLOG_INFO "connected to secure socket")) h1 rfl
  rw [emit_errQueue, hcq] at hsc
  simp only [World.enqueue, emit_errQueue, hq] at hsc
  generalize SecureSocket.showCertificate none
    { m_ssl := some h1, m_secureReady := true, fd := s.fd }
    (wc.emit (Effect.log LogLevel.CLOG_INFO "connected to secure socket")) = sc at hsc
  rcases sc with ⟨rs, ss, ws⟩
  simp only at hsc
  subst hsc
  rfl

/-- C4 (amended): on a socket whose handle exists, a client-role handshake step
for which the library reports `SSL_ERROR_NONE` sets the ready flag to true.  If
the peer presented no certificate the step then throws an `XSocket` whose
message is "server has no ssl certificate", followed by ": " and the text of
the earliest pending library error when that error has a non-zero code and a
non-empty text; the ready flag is still true after the throw.  If the peer
presented a certificate the step throws nothing and returns a stream job. -/
theorem connect_success_checks_certificate (job : Job) (reply : TlsReply)
    (s : SecureSocket) (w : World) (h : Ssl) (hs : s.m_ssl = some h)
    (hok : reply.errorCode = SSL_ERROR_NONE) :
    (SecureSocket.serviceConnect job reply s w).socket.m_secureReady = true ∧
    (reply.peerCert = none →
      (SecureSocket.serviceConnect job reply s w).result =
        Result.thrown (Exception.XSocket
          (SecureSocket.throwError.message "server has no ssl certificate"
            (w.errQueue ++ reply.queued)))) ∧
    (∀ line, reply.peerCert = some line → ∃ id,
      (SecureSocket.serviceConnect job reply s w).result =
        Result.ok ⟨id, JobMethod.stream⟩) := by
  have hretry : reply.isRetry = false := by
    simp only [TlsReply.isRetry, hok, switch_none]
  have hfatal : reply.isFatal = false := by
    simp only [TlsReply.isFatal, hok, switch_none]
  obtain ⟨h1, hsock, -, -, -, hcert, -⟩ := serviceConnect_spec job reply s w h hs
  refine ⟨by simp [hsock, hretry], fun hnone => ?_, fun line hline => hcert hretry line hline⟩
  have hthrow := secureConnect_int_no_certificate s.fd reply s w h hs hretry hfatal hnone
  unfold SecureSocket.serviceConnect
  generalize SecureSocket.secureConnect_int s.fd reply s w = o at hthrow
  rcases o with ⟨r0, s0, w0⟩
  simp only at hthrow
  subst hthrow
  rfl

/-- Witness for C4 (amended): the step of the counterexample, with one pending
library error. -/
theorem connect_success_checks_certificate_witness :
    (SecureSocket.serviceConnect Job.handshake (TlsReply.plain 1 SSL_ERROR_NONE)
      SecureSocket.afterInit
      { World.afterInit false with errQueue := [(5, "error:00000005:lib(0)")] }).result =
        Result.thrown (Exception.XSocket
          "server has no ssl certificate: error:00000005:lib(0)") ∧
    (SecureSocket.serviceConnect Job.handshake (TlsReply.plain 1 SSL_ERROR_NONE)
      SecureSocket.afterInit
      { World.afterInit false with
        errQueue := [(5, "error:00000005:lib(0)")] }).socket.m_secureReady = true :=
  have hw := connect_success_checks_certificate Job.handshake (TlsReply.plain 1 SSL_ERROR_NONE)
    SecureSocket.afterInit
    { World.afterInit false with errQueue := [(5, "error:00000005:lib(0)")] }
    ⟨some 0, none⟩ rfl rfl
  ⟨hw.2.1 rfl, hw.1⟩


/-! ### C5 -/

/-- C5 (failing input): on a fresh listen socket, one `accept()` with a pending
connection whose certificate file cannot be used, then destruction of the listen
socket.  `accept()` deletes the socket it built (address 0) in its `catch`
clause and leaves that address in the registry; the destructor then deletes
address 0 a second time. -/
theorem accept_failure_keeps_freed_socket_registered :
    (SecureListenSocket.accept AcceptReply.certificateMissing SecureListenSocket.initial []
      World.initial).result = Result.thrown Exception.std_exception ∧
    0 ∈ (SecureListenSocket.accept AcceptReply.certificateMissing SecureListenSocket.initial []
      World.initial).listen.m_secureSocketSet ∧
    deleteCount 0 (SecureListenSocket.accept AcceptReply.certificateMissing
      SecureListenSocket.initial [] World.initial).world.trace = 1 ∧
    (SecureListenSocket.destruct
      (SecureListenSocket.accept AcceptReply.certificateMissing SecureListenSocket.initial []
        World.initial).listen
      (SecureListenSocket.accept AcceptReply.certificateMissing SecureListenSocket.initial []
        World.initial).heap
      (SecureListenSocket.accept AcceptReply.certificateMissing SecureListenSocket.initial []
        World.initial).world).result = Result.undefined ∧
    deleteCount 0 (SecureListenSocket.destruct
      (SecureListenSocket.accept AcceptReply.certificateMissing SecureListenSocket.initial []
        World.initial).listen
      (SecureListenSocket.accept AcceptReply.certificateMissing SecureListenSocket.initial []
        World.initial).heap
      (SecureListenSocket.accept AcceptReply.certificateMissing SecureListenSocket.initial []
        World.initial).world).world.trace = 2 := by
  decide

/-! ### C10 -/

/-- C10 (failing input): a socket that was constructed and on which `initSsl`
was never called.  Its destructor dereferences the unassigned `m_ssl`. -/
theorem destruct_before_initSsl_is_undefined :
    (SecureSocket.construct 7).destruct World.initial = (Result.undefined, World.initial) := by
  decide


/-! ### Helper lemmas: delete counts -/

theorem deleteCount_emit (q : Nat) (w : World) (e : Effect) :
    deleteCount q (w.emit e).trace =
      deleteCount q w.trace + if e = Effect.delete_SecureSocket q then 1 else 0 := by
  unfold deleteCount World.emit
  simp only [List.count_append, List.count_cons, List.count_nil]
  by_cases h : e = Effect.delete_SecureSocket q
  · simp [h]
  · have h2 : ¬ (e == Effect.delete_SecureSocket q) = true := by simpa using h
    simp [h, h2]

theorem deleteCount_destruct (q : Nat) (s : SecureSocket) (w : World) :
    deleteCount q (s.destruct w).2.trace = deleteCount q w.trace := by
  unfold SecureSocket.destruct
  rcases s with ⟨m, ready, fd⟩
  cases m with
  | none => rfl
  | some h =>
    rcases h with ⟨ctx, ssl⟩
    cases ctx <;> cases ssl <;> simp [deleteCount_emit]

theorem deleteCount_delete (q p : Nat) (heap : Heap) (w : World) :
    deleteCount q (delete_SecureSocket p heap w).2.2.trace =
      deleteCount q w.trace + if p = q then 1 else 0 := by
  unfold delete_SecureSocket
  cases hl : List.lookup p heap with
  | none => simp [deleteCount_emit]
  | some obj =>
    simp only
    have hd := deleteCount_destruct q obj (w.emit (Effect.delete_SecureSocket p))
    generalize obj.destruct (w.emit (Effect.delete_SecureSocket p)) = d at hd
    rcases d with ⟨r, w1⟩
    simp only at hd ⊢
    rw [hd, deleteCount_emit]
    simp

/-! ### Helper lemmas: transfers on an initialised socket -/

/-- Behaviour of transfers on a socket whose handle exists (the part of C7 that
holds by design), for `secureRead` and `secureWrite` alike: without a session
the call returns 0 and leaves the world untouched (no call to the TLS library,
no notification); with a session it returns 0 when the outcome is classified
retry, and otherwise the raw count `r` when `r > 0` and 0 when `r ≤ 0`.  In
every case the call returns normally and its result, read as an integer, is 0
or the positive `r`, never a negative count reinterpreted. -/
theorem transfer_count (n : Nat) (reply : TlsReply) (s : SecureSocket) (w : World)
    (h : Ssl) (hs : s.m_ssl = some h) :
    (h.m_ssl = none →
      SecureSocket.secureRead n reply s w = ⟨Result.ok 0, s, w⟩ ∧
      SecureSocket.secureWrite n reply s w = ⟨Result.ok 0, s, w⟩) ∧
    (h.m_ssl ≠ none → reply.isRetry = true →
      (SecureSocket.secureRead n reply s w).result = Result.ok 0 ∧
      (SecureSocket.secureWrite n reply s w).result = Result.ok 0) ∧
    (h.m_ssl ≠ none → reply.isRetry = false → 0 < reply.r →
      ∃ k : Nat, (k : Int) = reply.r ∧
        (SecureSocket.secureRead n reply s w).result = Result.ok k ∧
        (SecureSocket.secureWrite n reply s w).result = Result.ok k) ∧
    (h.m_ssl ≠ none → reply.isRetry = false → reply.r ≤ 0 →
      (SecureSocket.secureRead n reply s w).result = Result.ok 0 ∧
      (SecureSocket.secureWrite n reply s w).result = Result.ok 0) := by
  refine ⟨fun hn => ⟨secureRead_no_session n reply s w h hs hn,
    secureWrite_no_session n reply s w h hs hn⟩, ?_, ?_, ?_⟩
  · intro hsome hretry
    obtain ⟨ssl, hssl⟩ := Option.ne_none_iff_exists'.mp hsome
    rw [(secureRead_session n reply s w h hs ssl hssl).1,
      (secureWrite_session n reply s w h hs ssl hssl).1]
    simp [hretry]
  · intro hsome hretry hpos
    obtain ⟨ssl, hssl⟩ := Option.ne_none_iff_exists'.mp hsome
    rw [(secureRead_session n reply s w h hs ssl hssl).1,
      (secureWrite_session n reply s w h hs ssl hssl).1]
    refine ⟨reply.r.toNat, Int.toNat_of_nonneg (le_of_lt hpos), ?_, ?_⟩ <;> simp [hretry, hpos]
  · intro hsome hretry hle
    obtain ⟨ssl, hssl⟩ := Option.ne_none_iff_exists'.mp hsome
    rw [(secureRead_session n reply s w h hs ssl hssl).1,
      (secureWrite_session n reply s w h hs ssl hssl).1]
    have : ¬ reply.r > 0 := not_lt.mpr hle
    simp [hretry, this]

/-- An instance of `transfer_count`: a write on a socket with a session for
which the library reports -1 and a fatal category returns 0. -/
theorem transfer_count_witness :
    (SecureSocket.secureWrite 16 (TlsReply.plain (-1) SSL_ERROR_SYSCALL)
      { SecureSocket.afterInit with m_ssl := some ⟨some 0, some 1⟩ }
      (World.afterInit true)).result = Result.ok 0 :=
  ((transfer_count 16 (TlsReply.plain (-1) SSL_ERROR_SYSCALL)
    { SecureSocket.afterInit with m_ssl := some ⟨some 0, some 1⟩ }
    (World.afterInit true) ⟨some 0, some 1⟩ rfl).2.2.2 (by decide) (by decide) (by decide)).2


/-! ### C8 -/

theorem apply_transfer (op : SocketOp) (s : SecureSocket) (w : World) (h : Ssl)
    (hs : s.m_ssl = some h) (hop : op.isHandshake = false) :
    (op.apply s w).result =
      Result.ok (OpValue.count
        (if h.m_ssl.isSome && !op.reply.isRetry && decide (0 < op.reply.r)
          then op.reply.r.toNat else 0)) ∧
    (op.apply s w).socket = s ∧
    ∀ ev, eventCount ev (op.apply s w).world.trace =
      eventCount ev w.trace + if h.m_ssl.isSome && op.reply.isFatal then 1 else 0 := by
  cases op with
  | serviceAccept job reply => simp [SocketOp.isHandshake] at hop
  | serviceConnect job reply => simp [SocketOp.isHandshake] at hop
  | secureRead n reply =>
    simp only [SocketOp.apply, SocketOp.reply]
    cases hssl : h.m_ssl with
    | none =>
      rw [secureRead_no_session n reply s w h hs hssl]
      simp [Out.map]
    | some ssl =>
      obtain ⟨hres, hsock, hev⟩ := secureRead_session n reply s w h hs ssl hssl
      generalize SecureSocket.secureRead n reply s w = o at hres hsock hev
      rcases o with ⟨r0, s0, w0⟩
      simp only at hres hsock hev
      subst hres hsock
      refine ⟨?_, rfl, fun ev => by simpa using hev ev⟩
      simp only [Out.map, Option.isSome_some, Bool.true_and]
      cases reply.isRetry <;> simp
  | secureWrite n reply =>
    simp only [SocketOp.apply, SocketOp.reply]
    cases hssl : h.m_ssl with
    | none =>
      rw [secureWrite_no_session n reply s w h hs hssl]
      simp [Out.map]
    | some ssl =>
      obtain ⟨hres, hsock, hev⟩ := secureWrite_session n reply s w h hs ssl hssl
      generalize SecureSocket.secureWrite n reply s w = o at hres hsock hev
      rcases o with ⟨r0, s0, w0⟩
      simp only at hres hsock hev
      subst hres hsock
      refine ⟨?_, rfl, fun ev => by simpa using hev ev⟩
      simp only [Out.map, Option.isSome_some, Bool.true_and]
      cases reply.isRetry <;> simp

theorem runOps_transfers (ops : List SocketOp) (s : SecureSocket) (w : World) (h : Ssl)
    (hs : s.m_ssl = some h) (hops : ∀ op ∈ ops, op.isHandshake = false) :
    (runOps ops s w).steps =
      ops.map (fun op => (Result.ok (OpValue.count
        (if h.m_ssl.isSome && !op.reply.isRetry && decide (0 < op.reply.r)
          then op.reply.r.toNat else 0)), s.m_secureReady)) ∧
    ∀ ev, eventCount ev (runOps ops s w).world.trace =
      eventCount ev w.trace +
        if h.m_ssl.isSome then ops.countP (fun op => op.reply.isFatal) else 0 := by
  induction ops generalizing w with
  | nil => exact ⟨rfl, fun ev => by simp [runOps]⟩
  | cons op rest ih =>
    obtain ⟨hres, hsock, hev⟩ := apply_transfer op s w h hs (hops op (List.mem_cons_self op rest))
    have ih1 := ih (op.apply s w).world (fun o ho => hops o (List.mem_cons_of_mem op ho))
    simp only [runOps, List.map_cons, List.countP_cons]
    generalize op.apply s w = o at hres hsock hev ih1
    rcases o with ⟨r0, s0, w0⟩
    simp only at hres hsock hev ih1
    subst hres hsock
    obtain ⟨ih2, ih3⟩ := ih1
    refine ⟨?_, fun ev => ?_⟩
    · simp only [ih2]
    · simp only [ih3 ev, hev ev]
      cases h.m_ssl.isSome <;> cases op.reply.isFatal <;>
        simp [Nat.add_assoc, Nat.add_comm, Nat.add_left_comm]

theorem apply_handshakeStep (server : Bool) (job : Job) (reply : TlsReply)
    (s : SecureSocket) (w : World) (h : Ssl) (hs : s.m_ssl = some h) :
    ∃ h1 : Ssl,
      ((handshakeStep server job reply).apply s w).socket =
        { s with m_ssl := some h1, m_secureReady := !reply.isRetry } ∧
      h1.m_ssl.isSome = (h.m_ssl.isSome || h.m_context.isSome) ∧
      ∀ ev, eventCount ev ((handshakeStep server job reply).apply s w).world.trace =
        eventCount ev w.trace + if reply.isFatal then 1 else 0 := by
  cases server with
  | true =>
    obtain ⟨h1, hsock, hsome, hev, -, -⟩ := serviceAccept_spec job reply s w h hs
    refine ⟨h1, ?_⟩
    simp only [handshakeStep, if_true, SocketOp.apply]
    generalize SecureSocket.serviceAccept job reply s w = o at hsock hev
    rcases o with ⟨r0, s0, w0⟩
    simp only at hsock hev
    subst hsock
    cases r0 <;> exact ⟨rfl, hsome, hev⟩
  | false =>
    obtain ⟨h1, hsock, hsome, hev, -, -, -⟩ := serviceConnect_spec job reply s w h hs
    refine ⟨h1, ?_⟩
    simp only [handshakeStep, Bool.false_eq_true, if_false, SocketOp.apply]
    generalize SecureSocket.serviceConnect job reply s w = o at hsock hev
    rcases o with ⟨r0, s0, w0⟩
    simp only at hsock hev
    subst hsock
    cases r0 <;> exact ⟨rfl, hsome, hev⟩

/-- C8 (counterexample): a server-role socket right after `initSsl`; a
`serviceAccept` step classified fatal (`SSL_ERROR_SYSCALL`), then a `secureRead`
for which the library reports 5 bytes and no error, then a `secureWrite` for
which it reports `SSL_ERROR_SYSCALL` again.  The read returns 5, not 0, and
each of the two notifications has been dispatched twice, not once. -/
theorem transfers_after_fatal_step :
    (runOps
      [SocketOp.serviceAccept Job.handshake (TlsReply.plain (-1) SSL_ERROR_SYSCALL),
       SocketOp.secureRead 16 (TlsReply.plain 5 SSL_ERROR_NONE),
       SocketOp.secureWrite 16 (TlsReply.plain (-1) SSL_ERROR_SYSCALL)]
      SecureSocket.afterInit (World.afterInit true)).steps.map Prod.fst =
      [Result.ok (OpValue.job ⟨2, JobMethod.stream⟩), Result.ok (OpValue.count 5),
       Result.ok (OpValue.count 0)] ∧
    eventCount EventType.disconnected (runOps
      [SocketOp.serviceAccept Job.handshake (TlsReply.plain (-1) SSL_ERROR_SYSCALL),
       SocketOp.secureRead 16 (TlsReply.plain 5 SSL_ERROR_NONE),
       SocketOp.secureWrite 16 (TlsReply.plain (-1) SSL_ERROR_SYSCALL)]
      SecureSocket.afterInit (World.afterInit true)).world.trace = 2 ∧
    eventCount EventType.inputShutdown (runOps
      [SocketOp.serviceAccept Job.handshake (TlsReply.plain (-1) SSL_ERROR_SYSCALL),
       SocketOp.secureRead 16 (TlsReply.plain 5 SSL_ERROR_NONE),
       SocketOp.secureWrite 16 (TlsReply.plain (-1) SSL_ERROR_SYSCALL)]
      SecureSocket.afterInit (World.afterInit true)).world.trace = 2 := by
  decide

/-- C8 (amended): on a socket whose handle exists, after a handshake step
classified fatal and any subsequent sequence of `secureRead` / `secureWrite`
calls: every one of those calls returns normally; it returns the raw count `r`
when the socket has a session, the call is not classified retry and `r > 0`,
and 0 otherwise; and, counted over the fatal step and all those calls, each of
the notifications disconnected and input-shutdown has been dispatched once for
the fatal step plus once for every subsequent call classified fatal on a socket
with a session (so exactly once when no subsequent call is classified fatal). -/
theorem fatal_step_then_transfers (server : Bool) (job : Job) (reply : TlsReply)
    (ops : List SocketOp) (s : SecureSocket) (w : World) (h : Ssl) (hs : s.m_ssl = some h)
    (hfatal : reply.isFatal = true) (hops : ∀ op ∈ ops, op.isHandshake = false) :
    (runOps (handshakeStep server job reply :: ops) s w).steps.tail.map Prod.fst =
      ops.map (fun op => Result.ok (OpValue.count
        (if (h.m_ssl.isSome || h.m_context.isSome) && !op.reply.isRetry &&
            decide (0 < op.reply.r)
          then op.reply.r.toNat else 0))) ∧
    ∀ ev, eventCount ev (runOps (handshakeStep server job reply :: ops) s w).world.trace =
      eventCount ev w.trace + 1 +
        if h.m_ssl.isSome || h.m_context.isSome
          then ops.countP (fun op => op.reply.isFatal) else 0 := by
  obtain ⟨h1, hsock, hsome, hev⟩ := apply_handshakeStep server job reply s w h hs
  have hssl : ((handshakeStep server job reply).apply s w).socket.m_ssl = some h1 := by
    rw [hsock]
  obtain ⟨hsteps, hcount⟩ := runOps_transfers ops
    ((handshakeStep server job reply).apply s w).socket
    ((handshakeStep server job reply).apply s w).world h1 hssl hops
  refine ⟨?_, fun ev => ?_⟩
  · simp only [runOps, List.tail_cons, hsteps, List.map_map, hsome]
    rfl
  · simp only [runOps, hcount ev, hev ev, hfatal, if_true, hsome]

/-- Witness for C8 (amended): the run of the counterexample. -/
theorem fatal_step_then_transfers_witness :
    eventCount EventType.disconnected (runOps
      [SocketOp.serviceAccept Job.handshake (TlsReply.plain (-1) SSL_ERROR_SYSCALL),
       SocketOp.secureRead 16 (TlsReply.plain 5 SSL_ERROR_NONE),
       SocketOp.secureWrite 16 (TlsReply.plain (-1) SSL_ERROR_SYSCALL)]
      SecureSocket.afterInit (World.afterInit true)).world.trace = 2 :=
  (fatal_step_then_transfers true Job.handshake (TlsReply.plain (-1) SSL_ERROR_SYSCALL)
    [SocketOp.secureRead 16 (TlsReply.plain 5 SSL_ERROR_NONE),
     SocketOp.secureWrite 16 (TlsReply.plain (-1) SSL_ERROR_SYSCALL)]
    SecureSocket.afterInit (World.afterInit true) ⟨some 0, none⟩ rfl (by decide)
    (by decide)).2 EventType.disconnected


/-! ### C9 -/

theorem apply_ready (op : SocketOp) (s : SecureSocket) (w : World) (h : Ssl)
    (hs : s.m_ssl = some h) :
    ∃ h1 : Ssl,
      (op.apply s w).socket.m_ssl = some h1 ∧
      (op.apply s w).socket.m_secureReady =
        if op.isHandshake then !op.reply.isRetry else s.m_secureReady := by
  cases op with
  | serviceAccept job reply =>
    obtain ⟨h1, hsock, -, -⟩ := apply_handshakeStep true job reply s w h hs
    simp only [handshakeStep, if_true] at hsock
    exact ⟨h1, by rw [hsock], by rw [hsock]; simp [SocketOp.isHandshake, SocketOp.reply]⟩
  | serviceConnect job reply =>
    obtain ⟨h1, hsock, -, -⟩ := apply_handshakeStep false job reply s w h hs
    simp only [handshakeStep, Bool.false_eq_true, if_false] at hsock
    exact ⟨h1, by rw [hsock], by rw [hsock]; simp [SocketOp.isHandshake, SocketOp.reply]⟩
  | secureRead n reply =>
    obtain ⟨-, hsock, -⟩ := apply_transfer (SocketOp.secureRead n reply) s w h hs rfl
    exact ⟨h, by rw [hsock, hs], by rw [hsock]; simp [SocketOp.isHandshake]⟩
  | secureWrite n reply =>
    obtain ⟨-, hsock, -⟩ := apply_transfer (SocketOp.secureWrite n reply) s w h hs rfl
    exact ⟨h, by rw [hsock, hs], by rw [hsock]; simp [SocketOp.isHandshake]⟩

theorem runOps_stays_ready (ops : List SocketOp) (s : SecureSocket) (w : World) (h : Ssl)
    (hs : s.m_ssl = some h) (hready : s.m_secureReady = true)
    (hops : ops.all (fun o => !(o.isHandshake && o.reply.isRetry)) = true) :
    ∀ b ∈ (runOps ops s w).steps.map Prod.snd, b = true := by
  induction ops generalizing s w h with
  | nil => simp [runOps]
  | cons op rest ih =>
    obtain ⟨h1, hssl, hflag⟩ := apply_ready op s w h hs
    simp only [List.all_cons, Bool.and_eq_true] at hops
    have hnext : (op.apply s w).socket.m_secureReady = true := by
      rw [hflag, hready]
      cases hh : op.isHandshake with
      | false => simp
      | true => simpa [hh] using hops.1
    have ih1 := ih (op.apply s w).socket (op.apply s w).world h1 hssl hnext hops.2
    intro b hb
    simp only [runOps, List.map_cons, List.mem_cons] at hb
    rcases hb with hb | hb
    · rw [hb, hnext]
    · exact ih1 b hb

theorem chain_of_all_true (b : Bool) (l : List Bool) (hl : ∀ x ∈ l, x = true) :
    List.Chain (fun before after => before = true → after = true) b l := by
  induction l generalizing b with
  | nil => exact List.Chain.nil
  | cons x rest ih =>
    exact List.Chain.cons (fun _ => hl x (List.mem_cons_self x rest))
      (ih x (fun y hy => hl y (List.mem_cons_of_mem x hy)))

theorem jobChain_noRetryAfterCompletion (ops : List SocketOp) (h : jobChain ops = true) :
    noRetryAfterCompletion ops = true := by
  induction ops with
  | nil => rfl
  | cons op rest ih =>
    simp only [jobChain] at h
    simp only [noRetryAfterCompletion]
    split_ifs with hc
    · rw [if_pos hc] at h
      rw [List.all_eq_true] at h ⊢
      intro o ho
      have := h o ho
      simp only [Bool.not_eq_true'] at this
      simp [this]
    · rw [if_neg hc] at h
      exact ih h

/-- Outside the job chain the flag can be cleared: if `serviceAccept` were
invoked once more after the step that completed the handshake (a call the
multiplexer never makes, that step having returned the stream job in place of
the handshake job) and the library then reported `SSL_ERROR_WANT_READ`, the flag
would be true after the first step and false after the second.  This is why
monotonicity is stated for the sequences the job chain issues. -/
theorem ready_reverts_on_later_retry :
    (runOps
      [SocketOp.serviceAccept Job.handshake (TlsReply.plain 1 SSL_ERROR_NONE),
       SocketOp.serviceAccept Job.handshake (TlsReply.plain (-1) SSL_ERROR_WANT_READ)]
      SecureSocket.afterInit (World.afterInit true)).steps.map Prod.snd = [true, false] := by
  decide

/-- C9: the constructor leaves the ready flag false and `initSsl` keeps it
false; and along every sequence of handshake steps, `secureRead` and
`secureWrite` calls on a socket whose handle exists and whose flag is false, in
which no handshake step classified retry comes after a handshake step not
classified retry, the flag, once true after some operation, is true after every
later operation: it changes from false to true at most once and never goes back
to false.  Every sequence the job chain issues is of that kind
(`jobChain_noRetryAfterCompletion`), the handshake job being invoked again only
after a step that returned it, that is, after a retry. -/
theorem ready_monotone (ops : List SocketOp) (s : SecureSocket) (w : World) (h : Ssl)
    (hs : s.m_ssl = some h) (hready : s.m_secureReady = false)
    (hops : noRetryAfterCompletion ops = true) :
    ((SecureSocket.construct s.fd).m_secureReady = false ∧
      ∀ server ctxOk w0,
        (SecureSocket.initSsl server ctxOk (SecureSocket.construct s.fd)
          w0).socket.m_secureReady = false) ∧
    List.Chain (fun before after => before = true → after = true) s.m_secureReady
      ((runOps ops s w).steps.map Prod.snd) := by
  refine ⟨⟨rfl, fun server ctxOk w0 => by cases ctxOk <;> rfl⟩, ?_⟩
  induction ops generalizing s w h with
  | nil => exact List.Chain.nil
  | cons op rest ih =>
    obtain ⟨h1, hssl, hflag⟩ := apply_ready op s w h hs
    simp only [runOps, List.map_cons]
    refine List.Chain.cons (fun hb => by rw [hready] at hb; cases hb) ?_
    simp only [noRetryAfterCompletion] at hops
    cases hnext : (op.apply s w).socket.m_secureReady with
    | true =>
      have hdone : (op.isHandshake && !op.reply.isRetry) = true := by
        rw [hflag, hready] at hnext
        cases hh : op.isHandshake with
        | false => simp [hh] at hnext
        | true => simpa [hh] using hnext
      rw [hdone] at hops
      simp only [if_true] at hops
      exact chain_of_all_true true _
        (runOps_stays_ready rest (op.apply s w).socket (op.apply s w).world h1 hssl hnext hops)
    | false =>
      have hdone : (op.isHandshake && !op.reply.isRetry) = false := by
        rw [hflag, hready] at hnext
        cases hh : op.isHandshake with
        | false => simp
        | true => simpa [hh] using hnext
      rw [hdone] at hops
      simp only [Bool.false_eq_true, if_false] at hops
      have := ih (op.apply s w).socket (op.apply s w).world h1 hssl hnext hops
      rw [hnext] at this
      exact this

/-- Witness for C9: a job-chain sequence of two retries, the completing step,
then a read. -/
theorem ready_monotone_witness :
    List.Chain (fun before after => before = true → after = true) false
      ((runOps
        [SocketOp.serviceAccept Job.handshake (TlsReply.plain (-1) SSL_ERROR_WANT_READ),
         SocketOp.serviceAccept Job.handshake (TlsReply.plain (-1) SSL_ERROR_WANT_WRITE),
         SocketOp.serviceAccept Job.handshake (TlsReply.plain 1 SSL_ERROR_NONE),
         SocketOp.secureRead 16 (TlsReply.plain 5 SSL_ERROR_NONE)]
        SecureSocket.afterInit (World.afterInit true)).steps.map Prod.snd) :=
  (ready_monotone
    [SocketOp.serviceAccept Job.handshake (TlsReply.plain (-1) SSL_ERROR_WANT_READ),
     SocketOp.serviceAccept Job.handshake (TlsReply.plain (-1) SSL_ERROR_WANT_WRITE),
     SocketOp.serviceAccept Job.handshake (TlsReply.plain 1 SSL_ERROR_NONE),
     SocketOp.secureRead 16 (TlsReply.plain 5 SSL_ERROR_NONE)]
    SecureSocket.afterInit (World.afterInit true) ⟨some 0, none⟩ rfl rfl
    (jobChain_noRetryAfterCompletion _ (by decide))).2


/-! ### C14 -/

/-- C14: for every listen-socket state (registry, live sockets, world), when the
underlying accept primitive throws `XArchNetwork` (no pending connection),
`accept()` returns NULL without raising, leaves the registry and the live
sockets exactly as they were, and its only collaborator call is the
`acceptSocket` attempt itself: no socket is constructed and no job is installed
on the multiplexer. -/
theorem accept_nothing_pending (reply : AcceptReply) (l : SecureListenSocket) (heap : Heap)
    (w : World) (msg : String)
    (hpending : reply.acceptSocket = Except.error (Exception.XArchNetwork msg)) :
    SecureListenSocket.accept reply l heap w =
      ⟨Result.ok none, l, heap, w.emit Effect.acceptSocket⟩ ∧
    (SecureListenSocket.accept reply l heap w).world.trace =
      w.trace ++ [Effect.acceptSocket] ∧
    (SecureListenSocket.accept reply l heap w).world.trace.countP Effect.isSocketConstruction =
      w.trace.countP Effect.isSocketConstruction ∧
    (SecureListenSocket.accept reply l heap w).world.trace.countP Effect.isJobInstall =
      w.trace.countP Effect.isJobInstall := by
  have hout : SecureListenSocket.accept reply l heap w =
      ⟨Result.ok none, l, heap, w.emit Effect.acceptSocket⟩ := by
    unfold SecureListenSocket.accept
    simp only [hpending]
    rfl
  rw [hout]
  refine ⟨rfl, rfl, ?_, ?_⟩ <;>
    simp [World.emit, List.countP_append, Effect.isSocketConstruction, Effect.isJobInstall]

/-- Witness for C14: a fresh listen socket with nothing pending. -/
theorem accept_nothing_pending_witness :
    SecureListenSocket.accept AcceptReply.nothingPending SecureListenSocket.initial []
        World.initial =
      ⟨Result.ok none, SecureListenSocket.initial, [],
        World.initial.emit Effect.acceptSocket⟩ :=
  (accept_nothing_pending AcceptReply.nothingPending SecureListenSocket.initial []
    World.initial "no pending connection" rfl).1

/-! ### C11 -/

/-- C11 (failing input): on a fresh listen socket, one `accept()` with a pending
connection whose certificate file cannot be used.  `loadCertificates` throws the
socket error `XSocket` "could not use ssl certificate"; what leaves `accept()`
is the sliced copy made by `throw ex;`, an object of type `std::exception`
without that message, which a handler for `XSocket` does not match. -/
theorem accept_rethrows_sliced_copy :
    (SecureSocket.loadCertificates "/home/user/.synergy/Synergy.pem"
      AcceptReply.certificateMissing.cert SecureSocket.afterInit World.initial).result =
      Result.thrown (Exception.XSocket "could not use ssl certificate") ∧
    (SecureListenSocket.accept AcceptReply.certificateMissing SecureListenSocket.initial []
      World.initial).result = Result.thrown Exception.std_exception ∧
    (SecureListenSocket.accept AcceptReply.certificateMissing SecureListenSocket.initial []
      World.initial).result ≠
        Result.thrown (Exception.XSocket "could not use ssl certificate") := by
  decide

/-! ### C17 -/

/-- C17 (failing input): a socket right after `initSsl`, which owns a context and
no session.  `close()` calls `SSL_shutdown` on the NULL session pointer before
it calls the plain socket's close; the destructor, by contrast, calls
`SSL_shutdown` only when the session exists. -/
theorem close_shuts_down_null_session :
    (SecureSocket.close SecureSocket.afterInit (World.afterInit true)).world.trace =
      (World.afterInit true).trace ++ [Effect.SSL_shutdown none, Effect.TCPSocket_close] ∧
    (SecureSocket.destruct SecureSocket.afterInit (World.afterInit true)).2.trace =
      (World.afterInit true).trace ++ [Effect.SSL_CTX_free 0, Effect.delete_Ssl] := by
  decide


/-! ### C12 -/

/-- C12 (failing input): a client-role socket right after `initSsl`, one
`serviceConnect` step for which the library reports the fatal category
`SSL_ERROR_SSL` and no peer certificate.  The step dispatches the two
notifications and then throws the socket error "server has no ssl
certificate"; the same reply in server role returns a job normally. -/
theorem fatal_connect_step_throws :
    (SecureSocket.serviceConnect Job.handshake (TlsReply.plain (-1) SSL_ERROR_SSL)
      SecureSocket.afterInit (World.afterInit false)).result =
        Result.thrown (Exception.XSocket "server has no ssl certificate") ∧
    (TlsReply.plain (-1) SSL_ERROR_SSL).isFatal = true ∧
    eventCount EventType.disconnected
      (SecureSocket.serviceConnect Job.handshake (TlsReply.plain (-1) SSL_ERROR_SSL)
        SecureSocket.afterInit (World.afterInit false)).world.trace = 1 ∧
    (SecureSocket.serviceAccept Job.handshake (TlsReply.plain (-1) SSL_ERROR_SSL)
      SecureSocket.afterInit (World.afterInit true)).result =
        Result.ok ⟨2, JobMethod.stream⟩ := by
  decide

/-! ### C16 -/

theorem getError_text (w : World) :
    (SecureSocket.getError w).1 = SecureSocket.getError.text w.errQueue := by
  rcases w with ⟨next, q, t⟩
  unfold SecureSocket.getError SecureSocket.getError.text World.emit
  rcases q with _ | ⟨⟨e, text⟩, rest⟩
  · rfl
  · by_cases he : e = 0 <;> simp [he]

theorem getError_queue (w : World) :
    (SecureSocket.getError w).2.errQueue = w.errQueue.tail ∧
    (SecureSocket.getError w).2.nextId = w.nextId := by
  rcases w with ⟨next, q, t⟩
  unfold SecureSocket.getError World.emit
  rcases q with _ | ⟨⟨e, text⟩, rest⟩
  · exact ⟨rfl, rfl⟩
  · by_cases he : e = 0 <;> simp [he]

theorem showError_trace (w : World) :
    (SecureSocket.showError w).trace = w.trace ++ SecureSocket.showError.effects w.errQueue ∧
    (SecureSocket.showError w).errQueue = w.errQueue.tail ∧
    (SecureSocket.showError w).nextId = w.nextId := by
  unfold SecureSocket.showError SecureSocket.showError.effects
  have ht := getError_text w
  have htr := getError_trace w
  have hq := getError_queue w
  generalize SecureSocket.getError w = p at ht htr hq
  rcases p with ⟨error, w1⟩
  simp only at ht htr hq
  subst ht
  dsimp only
  split_ifs with hne
  · refine ⟨?_, hq.1, hq.2⟩
    simp [World.emit, htr]
  · refine ⟨?_, hq.1, hq.2⟩
    simp [htr]

theorem throwError_trace (reason : String) (w : World) :
    (SecureSocket.throwError reason w).2.trace = w.trace ++ [Effect.ERR_get_error] := by
  unfold SecureSocket.throwError
  have htr := getError_trace w
  generalize SecureSocket.getError w = p at htr
  rcases p with ⟨error, w1⟩
  dsimp only at htr ⊢
  split_ifs <;> exact htr

theorem showError_effects_no_event (queue : List (Nat × String)) :
    (SecureSocket.showError.effects queue).countP Effect.isSendEvent = 0 := by
  unfold SecureSocket.showError.effects
  split_ifs <;> simp [Effect.isSendEvent]

theorem checkResult_trace (n errorCode : Int) (s : SecureSocket) (w : World) (h : Ssl)
    (hs : s.m_ssl = some h) :
    (SecureSocket.checkResult n errorCode s w).world.trace =
      w.trace ++
        (Effect.SSL_get_error h.m_ssl n ::
          (match (SecureSocket.checkResult.switch errorCode).2.2 with
            | some (level, msg) => [Effect.log level msg]
            | none => [])) ++
        (if (SecureSocket.checkResult.switch errorCode).1 then
          SecureSocket.showError.effects w.errQueue ++
            [Effect.sendEvent EventType.disconnected, Effect.sendEvent EventType.inputShutdown]
        else []) := by
  unfold SecureSocket.checkResult SecureSocket.deref
  simp only [hs]
  generalize SecureSocket.checkResult.switch errorCode = sw
  rcases sw with ⟨fatal, retry, lg⟩
  rcases lg with _ | ⟨level, msg⟩ <;> cases fatal <;>
    simp [World.emit, (showError_trace _).1]

/-- C16: for every single invocation of `checkResult` on a socket whose handle
exists, the calls it makes are a list `pre` that holds no notification,
followed, exactly when the outcome is fatal, by one disconnected and then one
input-shutdown notification.  When the outcome is fatal and the pending error
text of the library is non-empty, `pre` holds the error-level log line with
that text.  Hence a fatal outcome dispatches each notification exactly once and
a non-fatal outcome (no error, clean shutdown, any retry category) none. -/
theorem checkResult_dispatch (n errorCode : Int) (s : SecureSocket) (w : World) (h : Ssl)
    (hs : s.m_ssl = some h) :
    (∃ pre : List Effect,
      pre.countP Effect.isSendEvent = 0 ∧
      ((SecureSocket.checkResult.switch errorCode).1 = true →
        SecureSocket.getError.text w.errQueue ≠ "" →
        Effect.log LogLevel.CLOG_ERR
          ("secure socket error: " ++ SecureSocket.getError.text w.errQueue) ∈ pre) ∧
      (SecureSocket.checkResult n errorCode s w).world.trace =
        w.trace ++ pre ++
          if (SecureSocket.checkResult.switch errorCode).1 then
            [Effect.sendEvent EventType.disconnected, Effect.sendEvent EventType.inputShutdown]
          else []) ∧
    ∀ ev, eventCount ev (SecureSocket.checkResult n errorCode s w).world.trace =
      eventCount ev w.trace + if (SecureSocket.checkResult.switch errorCode).1 then 1 else 0 := by
  refine ⟨?_, checkResult_events n errorCode s w h hs⟩
  have htr := checkResult_trace n errorCode s w h hs
  cases hf : (SecureSocket.checkResult.switch errorCode).1 with
  | false =>
    refine ⟨Effect.SSL_get_error h.m_ssl n ::
      (match (SecureSocket.checkResult.switch errorCode).2.2 with
        | some (level, msg) => [Effect.log level msg]
        | none => []), ?_, fun hc => by simp at hc, ?_⟩
    · split <;> simp [Effect.isSendEvent]
    · rw [htr, hf]
      simp
  | true =>
    refine ⟨(Effect.SSL_get_error h.m_ssl n ::
      (match (SecureSocket.checkResult.switch errorCode).2.2 with
        | some (level, msg) => [Effect.log level msg]
        | none => [])) ++ SecureSocket.showError.effects w.errQueue, ?_, fun _ hne => ?_, ?_⟩
    · rw [List.countP_append, showError_effects_no_event]
      split <;> simp [Effect.isSendEvent]
    · apply List.mem_append_right
      unfold SecureSocket.showError.effects
      simp [hne]
    · rw [htr, hf]
      simp

/-- Witness for C16: a fatal outcome with one pending library error. -/
theorem checkResult_dispatch_witness :
    eventCount EventType.inputShutdown
      (SecureSocket.checkResult (-1) SSL_ERROR_SYSCALL SecureSocket.afterInit
        { World.afterInit true with errQueue := [(5, "error:00000005:lib(0)")] }).world.trace =
      eventCount EventType.inputShutdown (World.afterInit true).trace + 1 :=
  (checkResult_dispatch (-1) SSL_ERROR_SYSCALL SecureSocket.afterInit
    { World.afterInit true with errQueue := [(5, "error:00000005:lib(0)")] }
    ⟨some 0, none⟩ rfl).2 EventType.inputShutdown


/-! ### C15 -/

theorem loadCertificates_eq (filename : String) (reply : CertReply) (s : SecureSocket)
    (w : World) (h : Ssl) (hs : s.m_ssl = some h) :
    SecureSocket.loadCertificates filename reply s w =
      if reply.useCertificate ≤ 0 then
        ⟨Result.thrown (SecureSocket.throwError "could not use ssl certificate"
            (w.emit (Effect.SSL_CTX_use_certificate_file h.m_context filename))).1, s,
          (SecureSocket.throwError "could not use ssl certificate"
            (w.emit (Effect.SSL_CTX_use_certificate_file h.m_context filename))).2⟩
      else if reply.usePrivateKey ≤ 0 then
        ⟨Result.thrown (SecureSocket.throwError "could not use ssl private key"
            ((w.emit (Effect.SSL_CTX_use_certificate_file h.m_context filename)).emit
              (Effect.SSL_CTX_use_PrivateKey_file h.m_context filename))).1, s,
          (SecureSocket.throwError "could not use ssl private key"
            ((w.emit (Effect.SSL_CTX_use_certificate_file h.m_context filename)).emit
              (Effect.SSL_CTX_use_PrivateKey_file h.m_context filename))).2⟩
      else if reply.checkPrivateKey = 0 then
        ⟨Result.thrown (SecureSocket.throwError "could not verify ssl private key"
            (((w.emit (Effect.SSL_CTX_use_certificate_file h.m_context filename)).emit
              (Effect.SSL_CTX_use_PrivateKey_file h.m_context filename)).emit
              (Effect.SSL_CTX_check_private_key h.m_context))).1, s,
          (SecureSocket.throwError "could not verify ssl private key"
            (((w.emit (Effect.SSL_CTX_use_certificate_file h.m_context filename)).emit
              (Effect.SSL_CTX_use_PrivateKey_file h.m_context filename)).emit
              (Effect.SSL_CTX_check_private_key h.m_context))).2⟩
      else
        ⟨Result.ok (), s,
          ((w.emit (Effect.SSL_CTX_use_certificate_file h.m_context filename)).emit
            (Effect.SSL_CTX_use_PrivateKey_file h.m_context filename)).emit
            (Effect.SSL_CTX_check_private_key h.m_context)⟩ := by
  unfold SecureSocket.loadCertificates SecureSocket.deref
  simp only [hs]

/-- C15: on a socket whose handle exists, `loadCertificates(path)` calls
use-certificate-file, use-private-key-file and check-private-key in that order,
each with the socket's context and the first two with `path`.  A step counts as
failed the way the code tests it (return value `≤ 0` for the two loads, `0` for
the check).  On the first failing step it throws an `XSocket` whose message
starts with that step's reason ("could not use ssl certificate", "could not use
ssl private key", "could not verify ssl private key") and makes none of the
later calls; it returns normally if and only if all three steps succeed. -/
theorem loadCertificates_steps (filename : String) (reply : CertReply) (s : SecureSocket)
    (w : World) (h : Ssl) (hs : s.m_ssl = some h) :
    (reply.useCertificate ≤ 0 →
      (SecureSocket.loadCertificates filename reply s w).result =
        Result.thrown (Exception.XSocket
          (SecureSocket.throwError.message "could not use ssl certificate" w.errQueue)) ∧
      (SecureSocket.loadCertificates filename reply s w).world.trace =
        w.trace ++ [Effect.SSL_CTX_use_certificate_file h.m_context filename,
          Effect.ERR_get_error]) ∧
    (0 < reply.useCertificate → reply.usePrivateKey ≤ 0 →
      (SecureSocket.loadCertificates filename reply s w).result =
        Result.thrown (Exception.XSocket
          (SecureSocket.throwError.message "could not use ssl private key" w.errQueue)) ∧
      (SecureSocket.loadCertificates filename reply s w).world.trace =
        w.trace ++ [Effect.SSL_CTX_use_certificate_file h.m_context filename,
          Effect.SSL_CTX_use_PrivateKey_file h.m_context filename, Effect.ERR_get_error]) ∧
    (0 < reply.useCertificate → 0 < reply.usePrivateKey → reply.checkPrivateKey = 0 →
      (SecureSocket.loadCertificates filename reply s w).result =
        Result.thrown (Exception.XSocket
          (SecureSocket.throwError.message "could not verify ssl private key" w.errQueue)) ∧
      (SecureSocket.loadCertificates filename reply s w).world.trace =
        w.trace ++ [Effect.SSL_CTX_use_certificate_file h.m_context filename,
          Effect.SSL_CTX_use_PrivateKey_file h.m_context filename,
          Effect.SSL_CTX_check_private_key h.m_context, Effect.ERR_get_error]) ∧
    (0 < reply.useCertificate → 0 < reply.usePrivateKey → reply.checkPrivateKey ≠ 0 →
      (SecureSocket.loadCertificates filename reply s w).result = Result.ok () ∧
      (SecureSocket.loadCertificates filename reply s w).world.trace =
        w.trace ++ [Effect.SSL_CTX_use_certificate_file h.m_context filename,
          Effect.SSL_CTX_use_PrivateKey_file h.m_context filename,
          Effect.SSL_CTX_check_private_key h.m_context]) ∧
    ((SecureSocket.loadCertificates filename reply s w).result = Result.ok () ↔
      0 < reply.useCertificate ∧ 0 < reply.usePrivateKey ∧ reply.checkPrivateKey ≠ 0) := by
  rw [loadCertificates_eq filename reply s w h hs]
  refine ⟨fun h1 => ?_, fun h1 h2 => ?_, fun h1 h2 h3 => ?_, fun h1 h2 h3 => ?_, ?_⟩
  · simp only [h1, if_true, throwError_message, throwError_trace, emit_errQueue]
    simp [World.emit]
  · have h1n : ¬ reply.useCertificate ≤ 0 := not_le.mpr h1
    simp only [h1n, h2, if_true, if_false, throwError_message, throwError_trace, emit_errQueue]
    simp [World.emit]
  · have h1n : ¬ reply.useCertificate ≤ 0 := not_le.mpr h1
    have h2n : ¬ reply.usePrivateKey ≤ 0 := not_le.mpr h2
    simp only [h1n, h2n, h3, if_true, if_false, throwError_message, throwError_trace,
      emit_errQueue]
    simp [World.emit]
  · have h1n : ¬ reply.useCertificate ≤ 0 := not_le.mpr h1
    have h2n : ¬ reply.usePrivateKey ≤ 0 := not_le.mpr h2
    simp only [h1n, h2n, h3, if_false]
    simp [World.emit]
  · by_cases h1 : reply.useCertificate ≤ 0
    · simp only [h1, if_true]
      constructor
      · intro hc; cases hc
      · intro hc; exact absurd h1 (not_le.mpr hc.1)
    · by_cases h2 : reply.usePrivateKey ≤ 0
      · simp only [h1, h2, if_true, if_false]
        constructor
        · intro hc; cases hc
        · intro hc; exact absurd h2 (not_le.mpr hc.2.1)
      · by_cases h3 : reply.checkPrivateKey = 0
        · simp only [h1, h2, h3, if_true, if_false]
          constructor
          · intro hc; cases hc
          · intro hc; exact absurd rfl hc.2.2
        · simp only [h1, h2, h3, if_false]
          exact ⟨fun _ => ⟨not_le.mp h1, not_le.mp h2, h3⟩, fun _ => trivial⟩

/-- Witness for C15: the certificate file of a non-existent path cannot be used;
the private-key load and the key check are not attempted. -/
theorem loadCertificates_steps_witness :
    (SecureSocket.loadCertificates "/nonexistent/Synergy.pem"
      { useCertificate := 0, usePrivateKey := 1, checkPrivateKey := 1 }
      SecureSocket.afterInit (World.afterInit true)).result =
        Result.thrown (Exception.XSocket "could not use ssl certificate") ∧
    (SecureSocket.loadCertificates "/nonexistent/Synergy.pem"
      { useCertificate := 0, usePrivateKey := 1, checkPrivateKey := 1 }
      SecureSocket.afterInit (World.afterInit true)).world.trace =
        (World.afterInit true).trace ++
          [Effect.SSL_CTX_use_certificate_file (some 0) "/nonexistent/Synergy.pem",
            Effect.ERR_get_error] :=
  (loadCertificates_steps "/nonexistent/Synergy.pem"
    { useCertificate := 0, usePrivateKey := 1, checkPrivateKey := 1 }
    SecureSocket.afterInit (World.afterInit true) ⟨some 0, none⟩ rfl).1 (by decide)

/-! ### C18 -/

theorem initSsl_eq (server ctxOk : Bool) (s : SecureSocket) (w : World) :
    (SecureSocket.initSsl server ctxOk s w).result = Result.ok () ∧
    (SecureSocket.initSsl server ctxOk s w).socket =
      { s with m_ssl := some ⟨if ctxOk then some w.nextId else none, none⟩ } ∧
    (SecureSocket.initSsl server ctxOk s w).world.trace =
      w.trace ++
        [Effect.new_Ssl, Effect.SSL_library_init, Effect.OpenSSL_add_all_algorithms,
          Effect.SSL_load_error_strings,
          Effect.SSL_CTX_new server (if ctxOk then some w.nextId else none)] ++
        (if ctxOk then [] else SecureSocket.showError.effects w.errQueue) ∧
    (SecureSocket.initSsl server ctxOk s w).world.nextId =
      (if ctxOk then w.nextId + 1 else w.nextId) ∧
    (SecureSocket.initSsl server ctxOk s w).world.errQueue =
      (if ctxOk then w.errQueue else w.errQueue.tail) := by
  unfold SecureSocket.initSsl SecureSocket.initContext SecureSocket.deref
  cases ctxOk with
  | true => simp [World.emit, World.fresh]
  | false =>
    simp only [Bool.false_eq_true, if_false]
    have hse := showError_trace
      (((((w.emit Effect.new_Ssl).emit Effect.SSL_library_init).emit
        Effect.OpenSSL_add_all_algorithms).emit Effect.SSL_load_error_strings).emit
        (Effect.SSL_CTX_new server none))
    refine ⟨trivial, trivial, ?_, hse.2.2, hse.2.1⟩
    rw [hse.1]
    simp [World.emit]

/-- C18 (counterexample): `initSsl(true)` called twice on a new socket.  The
second call allocates a second handle and creates a second context (1) and the
socket ends up owning context 1, not the context 0 it owned after the first
call; the first handle and context 0 are never freed. -/
theorem initSsl_twice_replaces_handle :
    (SecureSocket.initSsl true true
      (SecureSocket.initSsl true true (SecureSocket.construct 7) World.initial).socket
      (SecureSocket.initSsl true true (SecureSocket.construct 7) World.initial).world).socket ≠
      (SecureSocket.initSsl true true (SecureSocket.construct 7) World.initial).socket ∧
    (SecureSocket.initSsl true true
      (SecureSocket.initSsl true true (SecureSocket.construct 7) World.initial).socket
      (SecureSocket.initSsl true true (SecureSocket.construct 7) World.initial).world).world.trace =
      [Effect.new_Ssl, Effect.SSL_library_init, Effect.OpenSSL_add_all_algorithms,
        Effect.SSL_load_error_strings, Effect.SSL_CTX_new true (some 0),
        Effect.new_Ssl, Effect.SSL_library_init, Effect.OpenSSL_add_all_algorithms,
        Effect.SSL_load_error_strings, Effect.SSL_CTX_new true (some 1)] := by
  decide

/-- C18 (amended): every call of `initSsl(role)`, whatever the socket owned
before, returns normally, allocates a new handle, asks the library for a new
context built from the role's method (server method for role server, client
method for role client) and leaves the socket owning that handle with that
context (NULL if the library returned none) and no session.  It frees nothing:
its calls are the allocation, the three library initialisations, `SSL_CTX_new`
and, only when that returned NULL, those of `showError`. -/
theorem initSsl_allocates_anew (server ctxOk : Bool) (s : SecureSocket) (w : World) :
    (SecureSocket.initSsl server ctxOk s w).result = Result.ok () ∧
    (SecureSocket.initSsl server ctxOk s w).socket =
      { s with m_ssl := some ⟨if ctxOk then some w.nextId else none, none⟩ } ∧
    (SecureSocket.initSsl server ctxOk s w).world.trace =
      w.trace ++
        [Effect.new_Ssl, Effect.SSL_library_init, Effect.OpenSSL_add_all_algorithms,
          Effect.SSL_load_error_strings,
          Effect.SSL_CTX_new server (if ctxOk then some w.nextId else none)] ++
        (if ctxOk then [] else SecureSocket.showError.effects w.errQueue) :=
  ⟨(initSsl_eq server ctxOk s w).1, (initSsl_eq server ctxOk s w).2.1,
    (initSsl_eq server ctxOk s w).2.2.1⟩


/-! ### C19 -/

theorem sessionCreations_emit (w : World) (e : Effect) :
    sessionCreations (w.emit e).trace =
      sessionCreations w.trace ++ if e.isSessionCreation then [e] else [] := by
  unfold sessionCreations World.emit
  simp only [List.filter_append]
  cases he : e.isSessionCreation <;> simp [List.filter, he]

theorem sessionCreations_showError_effects (queue : List (Nat × String)) :
    (SecureSocket.showError.effects queue).filter Effect.isSessionCreation = [] := by
  unfold SecureSocket.showError.effects
  split_ifs <;> simp [Effect.isSessionCreation]

theorem sessionCreations_checkResult (n errorCode : Int) (s : SecureSocket) (w : World)
    (h : Ssl) (hs : s.m_ssl = some h) :
    sessionCreations (SecureSocket.checkResult n errorCode s w).world.trace =
      sessionCreations w.trace := by
  rw [checkResult_trace n errorCode s w h hs]
  unfold sessionCreations
  simp only [List.filter_append]
  have h1 : (Effect.SSL_get_error h.m_ssl n ::
      (match (SecureSocket.checkResult.switch errorCode).2.2 with
        | some (level, msg) => [Effect.log level msg]
        | none => [])).filter Effect.isSessionCreation = [] := by
    split <;> simp [Effect.isSessionCreation]
  rw [h1]
  split_ifs
  · simp [List.filter_append, sessionCreations_showError_effects, Effect.isSessionCreation]
  · simp

theorem sessionCreations_throwError (reason : String) (w : World) :
    sessionCreations (SecureSocket.throwError reason w).2.trace = sessionCreations w.trace := by
  rw [throwError_trace]
  simp [sessionCreations, Effect.isSessionCreation]

theorem sessionCreations_showCertificate (peerCert : Option String) (s : SecureSocket)
    (w : World) :
    sessionCreations (SecureSocket.showCertificate peerCert s w).world.trace =
      sessionCreations w.trace := by
  unfold SecureSocket.showCertificate SecureSocket.deref
  cases hm : s.m_ssl with
  | none => rfl
  | some h =>
    cases peerCert with
    | some line => simp [sessionCreations_emit, Effect.isSessionCreation]
    | none =>
      simp only
      rw [sessionCreations_throwError, sessionCreations_emit]
      simp [Effect.isSessionCreation]

theorem createSSL_sessions (s : SecureSocket) (w : World) (h : Ssl) (hs : s.m_ssl = some h) :
    (∀ x, h.m_ssl = some x →
      (SecureSocket.createSSL s w).socket.m_ssl = some h ∧
      sessionCreations (SecureSocket.createSSL s w).world.trace = sessionCreations w.trace) ∧
    (∀ ctx, h.m_ssl = none → h.m_context = some ctx →
      (SecureSocket.createSSL s w).socket.m_ssl = some ⟨some ctx, some w.nextId⟩ ∧
      sessionCreations (SecureSocket.createSSL s w).world.trace =
        sessionCreations w.trace ++ [Effect.SSL_new (some ctx) (some w.nextId)]) := by
  unfold SecureSocket.createSSL SecureSocket.deref
  simp only [hs]
  rcases h with ⟨c, x⟩
  constructor
  · intro y hy
    simp only at hy
    subst hy
    exact ⟨hs, rfl⟩
  · intro ctx hx hc
    simp only at hx hc
    subst hx hc
    refine ⟨rfl, ?_⟩
    simp [World.fresh, sessionCreations_emit, Effect.isSessionCreation]

theorem secureAccept_int_sessions (socket : Int) (reply : TlsReply) (s : SecureSocket)
    (w : World) (h : Ssl) (hs : s.m_ssl = some h) :
    (SecureSocket.secureAccept_int socket reply s w).socket.m_ssl =
      (SecureSocket.createSSL s w).socket.m_ssl ∧
    sessionCreations (SecureSocket.secureAccept_int socket reply s w).world.trace =
      sessionCreations (SecureSocket.createSSL s w).world.trace := by
  obtain ⟨h1, hr, hsock, -, -, -, -⟩ := createSSL_spec s w h hs
  unfold SecureSocket.secureAccept_int
  generalize SecureSocket.createSSL s w = o at hr hsock
  rcases o with ⟨r0, s0, w0⟩
  simp only at hr hsock
  subst hr hsock
  simp only [Out.bind, SecureSocket.deref]
  have hc := checkResult_result reply.r reply.errorCode
    { m_ssl := some h1, m_secureReady := s.m_secureReady, fd := s.fd }
    ((((w0.emit (Effect.SSL_set_fd h1.m_ssl socket)).emit
      (Effect.log LogLevel.CLOG_DEBUG2 "accepting secure socket")).emit
      (Effect.SSL_accept h1.m_ssl)).enqueue reply.queued) h1 rfl
  have hce := sessionCreations_checkResult reply.r reply.errorCode
    { m_ssl := some h1, m_secureReady := s.m_secureReady, fd := s.fd }
    ((((w0.emit (Effect.SSL_set_fd h1.m_ssl socket)).emit
      (Effect.log LogLevel.CLOG_DEBUG2 "accepting secure socket")).emit
      (Effect.SSL_accept h1.m_ssl)).enqueue reply.queued) h1 rfl
  generalize SecureSocket.checkResult reply.r reply.errorCode
    { m_ssl := some h1, m_secureReady := s.m_secureReady, fd := s.fd }
    ((((w0.emit (Effect.SSL_set_fd h1.m_ssl socket)).emit
      (Effect.log LogLevel.CLOG_DEBUG2 "accepting secure socket")).emit
      (Effect.SSL_accept h1.m_ssl)).enqueue reply.queued) = c at hc hce
  rcases c with ⟨rc, sc, wc⟩
  obtain ⟨hc1, hc2⟩ := hc
  simp only at hc1 hc2 hce
  subst hc1 hc2
  have hce2 : sessionCreations wc.trace = sessionCreations w0.trace := by
    rw [hce]
    simp [World.enqueue, sessionCreations_emit, Effect.isSessionCreation]
  refine ⟨rfl, ?_⟩
  simp only
  split_ifs <;> simp [sessionCreations_emit, Effect.isSessionCreation, hce2]


theorem secureConnect_int_sessions (socket : Int) (reply : TlsReply) (s : SecureSocket)
    (w : World) (h : Ssl) (hs : s.m_ssl = some h) :
    (SecureSocket.secureConnect_int socket reply s w).socket.m_ssl =
      (SecureSocket.createSSL s w).socket.m_ssl ∧
    sessionCreations (SecureSocket.secureConnect_int socket reply s w).world.trace =
      sessionCreations (SecureSocket.createSSL s w).world.trace := by
  obtain ⟨h1, hr, hsock, -, -, -, -⟩ := createSSL_spec s w h hs
  unfold SecureSocket.secureConnect_int
  generalize SecureSocket.createSSL s w = o at hr hsock
  rcases o with ⟨r0, s0, w0⟩
  simp only at hr hsock
  subst hr hsock
  simp only [Out.bind, SecureSocket.deref]
  have hc := checkResult_result reply.r reply.errorCode
    { m_ssl := some h1, m_secureReady := s.m_secureReady, fd := s.fd }
    ((((w0.emit (Effect.SSL_set_fd h1.m_ssl socket)).emit
      (Effect.log LogLevel.CLOG_DEBUG2 "connecting secure socket")).emit
      (Effect.SSL_connect h1.m_ssl)).enqueue reply.queued) h1 rfl
  have hce := sessionCreations_checkResult reply.r reply.errorCode
    { m_ssl := some h1, m_secureReady := s.m_secureReady, fd := s.fd }
    ((((w0.emit (Effect.SSL_set_fd h1.m_ssl socket)).emit
      (Effect.log LogLevel.CLOG_DEBUG2 "connecting secure socket")).emit
      (Effect.SSL_connect h1.m_ssl)).enqueue reply.queued) h1 rfl
  generalize SecureSocket.checkResult reply.r reply.errorCode
    { m_ssl := some h1, m_secureReady := s.m_secureReady, fd := s.fd }
    ((((w0.emit (Effect.SSL_set_fd h1.m_ssl socket)).emit
      (Effect.log LogLevel.CLOG_DEBUG2 "connecting secure socket")).emit
      (Effect.SSL_connect h1.m_ssl)).enqueue reply.queued) = c at hc hce
  rcases c with ⟨rc, sc, wc⟩
  obtain ⟨hc1, hc2⟩ := hc
  simp only at hc1 hc2 hce
  subst hc1 hc2
  have hce2 : sessionCreations wc.trace = sessionCreations w0.trace := by
    rw [hce]
    simp [World.enqueue, sessionCreations_emit, Effect.isSessionCreation]
  simp only
  cases hretry : (SecureSocket.checkResult.switch reply.errorCode).2.1 with
  | true =>
    simp only [Bool.not_true, Bool.false_eq_true, if_false]
    exact ⟨trivial, by split_ifs <;> simp [sessionCreations_emit, Effect.isSessionCreation, hce2]⟩
  | false =>
    simp only [Bool.not_false, if_true]
    have hwz : sessionCreations
        ((if (SecureSocket.checkResult.switch reply.errorCode).1 = true then
            ((wc.emit (Effect.log LogLevel.CLOG_ERR "failed to connect secure socket")).emit
              (Effect.log LogLevel.CLOG_INFO "server connection may not be secure")).emit
              (Effect.sleep 1)
          else wc).emit
          (Effect.log LogLevel.CLOG_INFO "connected to secure socket")).trace =
        sessionCreations w0.trace := by
      split_ifs <;> simp [sessionCreations_emit, Effect.isSessionCreation, hce2]
    generalize ((if (SecureSocket.checkResult.switch reply.errorCode).1 = true then
            ((wc.emit (Effect.log LogLevel.CLOG_ERR "failed to connect secure socket")).emit
              (Effect.log LogLevel.CLOG_INFO "server connection may not be secure")).emit
              (Effect.sleep 1)
          else wc).emit
          (Effect.log LogLevel.CLOG_INFO "connected to secure socket")) = wz at hwz
    obtain ⟨hs1, -, -, -⟩ := showCertificate_spec reply.peerCert
      { m_ssl := some h1, m_secureReady := true, fd := s.fd } wz h1 rfl
    have hs2 := sessionCreations_showCertificate reply.peerCert
      { m_ssl := some h1, m_secureReady := true, fd := s.fd } wz
    generalize SecureSocket.showCertificate reply.peerCert
      { m_ssl := some h1, m_secureReady := true, fd := s.fd } wz = sc at hs1 hs2
    rcases sc with ⟨rs, ss, ws⟩
    simp only at hs1 hs2
    subst hs1
    cases rs <;> exact ⟨rfl, by rw [hs2, hwz]⟩

theorem sessionCreations_newJob (w : World) :
    sessionCreations (TCPSocket.newJob w).2.trace = sessionCreations w.trace := by
  simp [TCPSocket.newJob, World.fresh, sessionCreations_emit, Effect.isSessionCreation]

theorem apply_handshakeStep_sessions (server : Bool) (job : Job) (reply : TlsReply)
    (s : SecureSocket) (w : World) (h : Ssl) (hs : s.m_ssl = some h) :
    ((handshakeStep server job reply).apply s w).socket.m_ssl =
      (SecureSocket.createSSL s w).socket.m_ssl ∧
    sessionCreations ((handshakeStep server job reply).apply s w).world.trace =
      sessionCreations (SecureSocket.createSSL s w).world.trace := by
  cases server with
  | true =>
    obtain ⟨h1, h2⟩ := secureAccept_int_sessions s.fd reply s w h hs
    simp only [handshakeStep, if_true, SocketOp.apply, SecureSocket.serviceAccept]
    generalize SecureSocket.secureAccept_int s.fd reply s w = o at h1 h2
    rcases o with ⟨r0, s0, w0⟩
    simp only at h1 h2
    cases r0 with
    | ok retry =>
      cases retry
      · exact ⟨h1, by simpa [Out.bind, Out.map, sessionCreations_newJob] using h2⟩
      · exact ⟨h1, h2⟩
    | thrown e => exact ⟨h1, h2⟩
    | undefined => exact ⟨h1, h2⟩
  | false =>
    obtain ⟨h1, h2⟩ := secureConnect_int_sessions s.fd reply s w h hs
    simp only [handshakeStep, Bool.false_eq_true, if_false, SocketOp.apply,
      SecureSocket.serviceConnect]
    generalize SecureSocket.secureConnect_int s.fd reply s w = o at h1 h2
    rcases o with ⟨r0, s0, w0⟩
    simp only at h1 h2
    cases r0 with
    | ok retry =>
      cases retry
      · exact ⟨h1, by simpa [Out.bind, Out.map, sessionCreations_newJob] using h2⟩
      · exact ⟨h1, h2⟩
    | thrown e => exact ⟨h1, h2⟩
    | undefined => exact ⟨h1, h2⟩

theorem runOps_handshakes_with_session (calls : List (Bool × Job × TlsReply))
    (s : SecureSocket) (w : World) (h : Ssl) (x : Nat) (hs : s.m_ssl = some h)
    (hx : h.m_ssl = some x) :
    (runOps (calls.map fun c => handshakeStep c.1 c.2.1 c.2.2) s w).socket.m_ssl = some h ∧
    sessionCreations (runOps (calls.map fun c => handshakeStep c.1 c.2.1 c.2.2) s w).world.trace =
      sessionCreations w.trace := by
  induction calls generalizing s w with
  | nil => exact ⟨hs, rfl⟩
  | cons c rest ih =>
    obtain ⟨h1, h2⟩ := apply_handshakeStep_sessions c.1 c.2.1 c.2.2 s w h hs
    obtain ⟨h3, h4⟩ := (createSSL_sessions s w h hs).1 x hx
    rw [h3] at h1
    rw [h4] at h2
    obtain ⟨ih1, ih2⟩ := ih ((handshakeStep c.1 c.2.1 c.2.2).apply s w).socket
      ((handshakeStep c.1 c.2.1 c.2.2).apply s w).world h1
    simp only [List.map_cons, runOps]
    exact ⟨ih1, by rw [ih2, h2]⟩

/-- C19: a constructed socket has no handle and so no session; after `initSsl`
the socket's handle holds no session; `createSSL` changes nothing when a
session exists; and on a socket that owns a context and no session, every
sequence of one or more handshake steps (either role, any outcome) creates
exactly one session object over the whole sequence, with one `SSL_new` call on
the socket's context, and the socket holds that one session afterwards.  As
the one-step sequence is included, the session is created by the first step and
by no later one. -/
theorem session_created_once (c : Bool × Job × TlsReply) (rest : List (Bool × Job × TlsReply))
    (s : SecureSocket) (w : World) (ctx : Nat) (hs : s.m_ssl = some ⟨some ctx, none⟩) :
    ((SecureSocket.construct s.fd).m_ssl = none ∧
      (∀ server ctxOk s0 w0, ∃ c0,
        (SecureSocket.initSsl server ctxOk s0 w0).socket.m_ssl = some ⟨c0, none⟩) ∧
      ∀ s1 w1 h1 x, s1.m_ssl = some h1 → h1.m_ssl = some x →
        SecureSocket.createSSL s1 w1 = ⟨Result.ok (), s1, w1⟩) ∧
    sessionCreations
        (runOps ((c :: rest).map fun c => handshakeStep c.1 c.2.1 c.2.2) s w).world.trace =
      sessionCreations w.trace ++ [Effect.SSL_new (some ctx) (some w.nextId)] ∧
    (runOps ((c :: rest).map fun c => handshakeStep c.1 c.2.1 c.2.2) s w).socket.m_ssl =
      some ⟨some ctx, some w.nextId⟩ := by
  refine ⟨⟨rfl, fun server ctxOk s0 w0 => ⟨_, by rw [(initSsl_eq server ctxOk s0 w0).2.1]⟩,
    fun s1 w1 h1 x hs1 hx => ?_⟩, ?_⟩
  · unfold SecureSocket.createSSL SecureSocket.deref
    simp [hs1, hx]
  · obtain ⟨h1, h2⟩ := apply_handshakeStep_sessions c.1 c.2.1 c.2.2 s w _ hs
    obtain ⟨h3, h4⟩ := (createSSL_sessions s w _ hs).2 ctx rfl rfl
    rw [h3] at h1
    rw [h4] at h2
    obtain ⟨ih1, ih2⟩ := runOps_handshakes_with_session rest
      ((handshakeStep c.1 c.2.1 c.2.2).apply s w).socket
      ((handshakeStep c.1 c.2.1 c.2.2).apply s w).world _ w.nextId h1 rfl
    simp only [List.map_cons, runOps]
    exact ⟨by rw [ih2, h2], ih1⟩

/-- Witness for C19: a server-role socket right after `initSsl`, stepped three
times. -/
theorem session_created_once_witness :
    sessionCreations
        (runOps
          [SocketOp.serviceAccept Job.handshake (TlsReply.plain (-1) SSL_ERROR_WANT_READ),
           SocketOp.serviceAccept Job.handshake (TlsReply.plain (-1) SSL_ERROR_WANT_WRITE),
           SocketOp.serviceAccept Job.handshake (TlsReply.plain 1 SSL_ERROR_NONE)]
          SecureSocket.afterInit (World.afterInit true)).world.trace =
      [Effect.SSL_new (some 0) (some 1)] :=
  (session_created_once (true, Job.handshake, TlsReply.plain (-1) SSL_ERROR_WANT_READ)
    [(true, Job.handshake, TlsReply.plain (-1) SSL_ERROR_WANT_WRITE),
     (true, Job.handshake, TlsReply.plain 1 SSL_ERROR_NONE)]
    SecureSocket.afterInit (World.afterInit true) 0 rfl).2.1

/-! ### C6 -/

theorem destruct_trace (s : SecureSocket) (w : World) (h : Ssl) (hs : s.m_ssl = some h) :
    (s.destruct w).1 = Result.ok () ∧
    (s.destruct w).2.trace =
      w.trace ++
        (match h.m_ssl with
          | some ssl => [Effect.SSL_shutdown (some ssl), Effect.SSL_free ssl]
          | none => []) ++
        (match h.m_context with
          | some ctx => [Effect.SSL_CTX_free ctx]
          | none => []) ++
        [Effect.delete_Ssl] := by
  unfold SecureSocket.destruct
  simp only [hs]
  rcases h with ⟨ctx, ssl⟩
  cases ctx <;> cases ssl <;> simp [World.emit]

theorem lookup_filter_ne (heap : Heap) (p q : Nat) (hq : q ≠ p) :
    List.lookup q (heap.filter (fun entry => entry.1 ≠ p)) = List.lookup q heap := by
  induction heap with
  | nil => rfl
  | cons e rest ih =>
    rcases e with ⟨a, obj⟩
    rw [List.filter_cons]
    by_cases ha : a = p
    · have hd : decide ((a, obj).1 ≠ p) = false := by simp [ha]
      have hqa : (q == a) = false := by rw [ha]; simpa using hq
      rw [hd]
      simp only [Bool.false_eq_true, if_false]
      rw [ih, List.lookup_cons, hqa]
    · have hd : decide ((a, obj).1 ≠ p) = true := by simp [ha]
      rw [hd]
      simp only [if_true]
      rw [List.lookup_cons, List.lookup_cons, ih]

theorem lookup_filter_self (heap : Heap) (p : Nat) :
    List.lookup p (heap.filter (fun entry => entry.1 ≠ p)) = none := by
  induction heap with
  | nil => rfl
  | cons e rest ih =>
    rcases e with ⟨a, obj⟩
    rw [List.filter_cons]
    by_cases ha : a = p
    · have hd : decide ((a, obj).1 ≠ p) = false := by simp [ha]
      rw [hd]
      simp only [Bool.false_eq_true, if_false]
      exact ih
    · have hd : decide ((a, obj).1 ≠ p) = true := by simp [ha]
      have hpa : (p == a) = false := by simpa using fun h => ha h.symm
      rw [hd]
      simp only [if_true]
      rw [List.lookup_cons, hpa]
      exact ih

/-- Behaviour of `deleteSocket` on a well-formed registry (the part of C6 that
holds by design).  An identity that is not in the registry: nothing changes at
all.  An identity in the registry: `delete` is applied to it once and to no
other socket, it is removed from the registry and every other entry stays; if
it is a live socket on which `initSsl` ran, the call returns normally, its
destructor has run (session shut down and freed when present, context freed
when present, handle released), it is no longer live and every other live
socket is untouched.  A second `deleteSocket` of the same identity right after
the first changes nothing. -/
theorem deleteSocket_removes_and_frees_once (socket : Nat) (l : SecureListenSocket)
    (heap : Heap) (w : World) :
    (socket ∉ l.m_secureSocketSet →
      SecureListenSocket.deleteSocket socket l heap w = ⟨Result.ok (), l, heap, w⟩) ∧
    (socket ∈ l.m_secureSocketSet →
      deleteCount socket (SecureListenSocket.deleteSocket socket l heap w).world.trace =
        deleteCount socket w.trace + 1 ∧
      socket ∉ (SecureListenSocket.deleteSocket socket l heap w).listen.m_secureSocketSet ∧
      (∀ q, q ≠ socket →
        deleteCount q (SecureListenSocket.deleteSocket socket l heap w).world.trace =
          deleteCount q w.trace ∧
        (q ∈ (SecureListenSocket.deleteSocket socket l heap w).listen.m_secureSocketSet ↔
          q ∈ l.m_secureSocketSet)) ∧
      ∀ obj h, List.lookup socket heap = some obj → obj.m_ssl = some h →
        (SecureListenSocket.deleteSocket socket l heap w).result = Result.ok () ∧
        List.lookup socket (SecureListenSocket.deleteSocket socket l heap w).heap = none ∧
        (∀ q, q ≠ socket →
          List.lookup q (SecureListenSocket.deleteSocket socket l heap w).heap =
            List.lookup q heap) ∧
        (SecureListenSocket.deleteSocket socket l heap w).world.trace =
          w.trace ++ [Effect.delete_SecureSocket socket] ++
            (match h.m_ssl with
              | some ssl => [Effect.SSL_shutdown (some ssl), Effect.SSL_free ssl]
              | none => []) ++
            (match h.m_context with
              | some ctx => [Effect.SSL_CTX_free ctx]
              | none => []) ++
            [Effect.delete_Ssl]) ∧
    SecureListenSocket.deleteSocket socket
        (SecureListenSocket.deleteSocket socket l heap w).listen
        (SecureListenSocket.deleteSocket socket l heap w).heap
        (SecureListenSocket.deleteSocket socket l heap w).world =
      ⟨Result.ok (), (SecureListenSocket.deleteSocket socket l heap w).listen,
        (SecureListenSocket.deleteSocket socket l heap w).heap,
        (SecureListenSocket.deleteSocket socket l heap w).world⟩ := by
  by_cases hmem : socket ∈ l.m_secureSocketSet
  · have hcount := fun q => deleteCount_delete q socket heap w
    have hout : SecureListenSocket.deleteSocket socket l heap w =
        ⟨(delete_SecureSocket socket heap w).1,
          { l with m_secureSocketSet := l.m_secureSocketSet.erase socket },
          (delete_SecureSocket socket heap w).2.1, (delete_SecureSocket socket heap w).2.2⟩ := by
      unfold SecureListenSocket.deleteSocket
      simp only [hmem, if_true]
    rw [hout]
    refine ⟨fun hn => absurd hmem hn,
      fun _ => ⟨?_, ?_, fun q hq => ⟨?_, ?_⟩, fun obj h hlive hinit => ?_⟩, ?_⟩
    · simpa using hcount socket
    · simp
    · have := hcount q
      simp only [this]
      have hne : ¬ socket = q := fun h => hq h.symm
      simp [hne]
    · simp [Finset.mem_erase, hq]
    · obtain ⟨hd1, hd2⟩ := destruct_trace obj (w.emit (Effect.delete_SecureSocket socket)) h hinit
      have hdel : delete_SecureSocket socket heap w =
          ((obj.destruct (w.emit (Effect.delete_SecureSocket socket))).1,
            heap.filter (fun entry => entry.1 ≠ socket),
            (obj.destruct (w.emit (Effect.delete_SecureSocket socket))).2) := by
        unfold delete_SecureSocket
        simp only [hlive]
      rw [hdel]
      refine ⟨hd1, lookup_filter_self heap socket,
        fun q hq => lookup_filter_ne heap socket q hq, ?_⟩
      rw [hd2]
      simp only [World.emit, List.append_assoc]
    · unfold SecureListenSocket.deleteSocket
      simp
  · have hout : SecureListenSocket.deleteSocket socket l heap w = ⟨Result.ok (), l, heap, w⟩ := by
      unfold SecureListenSocket.deleteSocket
      simp only [hmem, if_false]
    rw [hout]
    refine ⟨fun _ => rfl, fun hm => absurd hm hmem, hout⟩

/-- C6 (failing input): a fresh listen socket after one `accept()` whose
certificate file could not be used (the socket built at address 0 was deleted
by the `catch` clause and address 0 is still registered), then
`deleteSocket(0)`.  Address 0 is in the registry and holds no live socket;
`deleteSocket` applies `delete` to it a second time, which is undefined
behaviour: the socket is freed twice, not exactly once. -/
theorem deleteSocket_frees_registered_socket_again :
    0 ∈ SecureListenSocket.afterFailedAccept.listen.m_secureSocketSet ∧
    List.lookup 0 SecureListenSocket.afterFailedAccept.heap = none ∧
    deleteCount 0 SecureListenSocket.afterFailedAccept.world.trace = 1 ∧
    (SecureListenSocket.deleteSocket 0 SecureListenSocket.afterFailedAccept.listen
      SecureListenSocket.afterFailedAccept.heap
      SecureListenSocket.afterFailedAccept.world).result = Result.undefined ∧
    deleteCount 0 (SecureListenSocket.deleteSocket 0 SecureListenSocket.afterFailedAccept.listen
      SecureListenSocket.afterFailedAccept.heap
      SecureListenSocket.afterFailedAccept.world).world.trace = 2 := by
  decide

/-- On the live socket that a successful `accept()` registered, `deleteSocket`
returns normally, runs the destructor once and leaves no live socket and an
empty registry. -/
theorem deleteSocket_after_accept :
    (SecureListenSocket.deleteSocket 0 SecureListenSocket.afterAccept.listen
      SecureListenSocket.afterAccept.heap SecureListenSocket.afterAccept.world).result =
        Result.ok () ∧
    (SecureListenSocket.deleteSocket 0 SecureListenSocket.afterAccept.listen
      SecureListenSocket.afterAccept.heap SecureListenSocket.afterAccept.world).heap = [] ∧
    (SecureListenSocket.deleteSocket 0 SecureListenSocket.afterAccept.listen
      SecureListenSocket.afterAccept.heap
      SecureListenSocket.afterAccept.world).listen.m_secureSocketSet = ∅ ∧
    deleteCount 0 (SecureListenSocket.deleteSocket 0 SecureListenSocket.afterAccept.listen
      SecureListenSocket.afterAccept.heap
      SecureListenSocket.afterAccept.world).world.trace = 1 := by
  decide

/-! ### C7 -/

/-- C7 (failing input): a socket that was constructed and on which `initSsl` was
never called, so it has no session object.  `secureRead` and `secureWrite`
start with `m_ssl->m_ssl`, a dereference of the unassigned `m_ssl`: undefined
behaviour instead of the result 0. -/
theorem transfer_before_initSsl_is_undefined :
    SecureSocket.secureRead 16 (TlsReply.plain 5 SSL_ERROR_NONE) (SecureSocket.construct 7)
        World.initial =
      ⟨Result.undefined, SecureSocket.construct 7, World.initial⟩ ∧
    SecureSocket.secureWrite 16 (TlsReply.plain 5 SSL_ERROR_NONE) (SecureSocket.construct 7)
        World.initial =
      ⟨Result.undefined, SecureSocket.construct 7, World.initial⟩ := by
  decide

/-! ### C13 -/

theorem showError_effects_no_listening (queue : List (Nat × String)) :
    (SecureSocket.showError.effects queue).countP Effect.isListeningJob = 0 := by
  unfold SecureSocket.showError.effects
  split_ifs <;> simp [Effect.isListeningJob]

/-- Behaviour of `accept()` when a connection is pending and the three
certificate steps succeed (the part of C13 that holds by design): it returns
the address the allocator gave the new socket; the registry afterwards is the
old registry plus that address; the new socket lives on the accepted
descriptor, owns the handle `initSsl(true)` gave it (server-role context, no
session) and is not ready; the calls made are, in order, the accept, the
construction, `initSsl(true)`, the three certificate steps on
`<profile directory>/Synergy.pem`, the scheduling of a `serviceAccept` job and
one `addSocket` with a `serviceListening` job, so the listening job is re-armed
exactly once.  The address is new to the registry whenever every registered
address holds a live socket, since the allocator returns no live address. -/
theorem accept_pending_connection (reply : AcceptReply) (l : SecureListenSocket) (heap : Heap)
    (w : World) (fd : Int) (hfd : reply.acceptSocket = Except.ok fd)
    (h1 : 0 < reply.cert.useCertificate) (h2 : 0 < reply.cert.usePrivateKey)
    (h3 : reply.cert.checkPrivateKey ≠ 0) :
    (SecureListenSocket.accept reply l heap w).result = Result.ok (some reply.address) ∧
    (SecureListenSocket.accept reply l heap w).listen.m_secureSocketSet =
      insert reply.address l.m_secureSocketSet ∧
    (SecureListenSocket.accept reply l heap w).heap.lookup reply.address =
      some ⟨some ⟨if reply.ctxOk then some w.nextId else none, none⟩, false, fd⟩ ∧
    ((SecureListenSocket.accept reply l heap w).world.trace =
        w.trace ++
          [Effect.acceptSocket, Effect.new_SecureSocket reply.address, Effect.new_Ssl,
            Effect.SSL_library_init, Effect.OpenSSL_add_all_algorithms,
            Effect.SSL_load_error_strings,
            Effect.SSL_CTX_new true (if reply.ctxOk then some w.nextId else none)] ++
          (if reply.ctxOk then [] else SecureSocket.showError.effects w.errQueue) ++
          [Effect.SSL_CTX_use_certificate_file
              (if reply.ctxOk then some w.nextId else none)
              (reply.profileDirectory ++ "/" ++ s_certificateFilename),
            Effect.SSL_CTX_use_PrivateKey_file
              (if reply.ctxOk then some w.nextId else none)
              (reply.profileDirectory ++ "/" ++ s_certificateFilename),
            Effect.SSL_CTX_check_private_key
              (if reply.ctxOk then some w.nextId else none),
            Effect.setJob ⟨w.nextId + (if reply.ctxOk then 1 else 0), JobMethod.serviceAccept⟩,
            Effect.addSocket
              ⟨w.nextId + (if reply.ctxOk then 2 else 1), JobMethod.serviceListening⟩]) ∧
    (SecureListenSocket.accept reply l heap w).world.trace.countP Effect.isListeningJob =
      w.trace.countP Effect.isListeningJob + 1 ∧
    ((∀ q ∈ l.m_secureSocketSet, List.lookup q heap ≠ none) →
      List.lookup reply.address heap = none → reply.address ∉ l.m_secureSocketSet) := by
  have h1n : ¬ reply.cert.useCertificate ≤ 0 := not_le.mpr h1
  have h2n : ¬ reply.cert.usePrivateKey ≤ 0 := not_le.mpr h2
  obtain ⟨hr, hsock, htr, hnext, -⟩ := initSsl_eq true reply.ctxOk (SecureSocket.construct fd)
    ((w.emit Effect.acceptSocket).emit (Effect.new_SecureSocket reply.address))
  unfold SecureListenSocket.accept
  simp only [hfd]
  generalize SecureSocket.initSsl true reply.ctxOk (SecureSocket.construct fd)
    ((w.emit Effect.acceptSocket).emit (Effect.new_SecureSocket reply.address)) = o
    at hr hsock htr hnext
  rcases o with ⟨r0, s0, w0⟩
  simp only at hr hsock htr hnext
  subst hr hsock
  simp only [Out.bind]
  rw [loadCertificates_eq _ reply.cert _ w0 _ rfl]
  simp only [h1n, h2n, h3, if_false, SecureSocket.secureAccept, World.fresh]
  refine ⟨trivial, trivial, ?_, ?_, ?_, fun hlive hfree hmem => hlive _ hmem hfree⟩
  · simp [SecureSocket.construct, World.emit]
  · simp only [World.emit, htr, hnext]
    cases reply.ctxOk <;> simp
  · simp only [World.emit, htr, List.countP_append]
    cases reply.ctxOk <;>
      simp [Effect.isListeningJob, showError_effects_no_listening, List.countP_cons]

/-- C13 (failing input): a fresh listen socket after one `accept()` whose
certificate file could not be used (the socket built at address 0 was deleted
by the `catch` clause and address 0 is still registered), then an `accept()`
with one pending connection and successful certificate loading in which the
allocator places the new socket at the freed address 0.  The socket returned
was already in the registry, and the registry afterwards is the old registry
with nothing added. -/
theorem accept_returns_registered_address :
    0 ∈ SecureListenSocket.afterFailedAccept.listen.m_secureSocketSet ∧
    List.lookup 0 SecureListenSocket.afterFailedAccept.heap = none ∧
    (SecureListenSocket.accept AcceptReply.connectionPending
      SecureListenSocket.afterFailedAccept.listen SecureListenSocket.afterFailedAccept.heap
      SecureListenSocket.afterFailedAccept.world).result = Result.ok (some 0) ∧
    (SecureListenSocket.accept AcceptReply.connectionPending
      SecureListenSocket.afterFailedAccept.listen SecureListenSocket.afterFailedAccept.heap
      SecureListenSocket.afterFailedAccept.world).listen.m_secureSocketSet =
      SecureListenSocket.afterFailedAccept.listen.m_secureSocketSet := by
  decide

end Synergy
